import Mathlib

/-!
# integrated_viewer :: ImageViewerPlugin

A shallow embedding of `image_viewer_plugin.cpp` (the rviz panel that shows a camera image
with detection rectangles, projected points and lanes drawn over it) and the properties of
its topic classification, subscription handling, message storage and redraw routine.
-/

set_option linter.dupNamespace false

namespace integrated_viewer

/-! ## Strings and the topic type constants -/

/-- A `QString`, compared and searched case-sensitively, character by character. -/
abbrev QString := String

/-- `QString::contains(sub)`: `sub` occurs in `s` as a contiguous run of characters
(the empty string occurs in every string). Scans the start positions left to right. -/
def containsChars (sub : List Char) : List Char → Bool
  | [] => sub.isEmpty
  | c :: cs => sub.isPrefixOf (c :: cs) || containsChars sub cs

/-- `s.contains(sub)` on `QString`s. -/
def QString.contains (s sub : QString) : Bool :=
  containsChars sub.data s.data

def kImageDataType : QString := "sensor_msgs/Image"
def kDetectedObjectDataTypeBase : QString := "autoware_msgs/DetectedObjectArray"
def kPointDataType : QString := "autoware_msgs/PointsImage"
def kLaneDataType : QString := "autoware_msgs/ImageLaneObjects"
def kBlankTopic : QString := "-----"

/-- `ros::master::TopicInfo`: an advertised topic with its declared message type. -/
structure TopicInfo where
  name : QString
  datatype : QString
deriving DecidableEq

/-- The four `QStringList`s local to `UpdateTopicList`. -/
structure TopicLists where
  image_topic_list : List QString
  rect_topic_list : List QString
  point_topic_list : List QString
  lane_topic_list : List QString
deriving DecidableEq

/-- One iteration of the `for` loop of `UpdateTopicList` (lines 98-126): the first
containment check that succeeds appends the topic name to its list and `continue`s. -/
def analyseTopic (l : TopicLists) (info : TopicInfo) : TopicLists :=
  let topic_name := info.name
  let topic_type := info.datatype
  if QString.contains topic_type kImageDataType = true then
    { l with image_topic_list := l.image_topic_list ++ [topic_name] }
  else if QString.contains topic_type kDetectedObjectDataTypeBase = true then
    { l with rect_topic_list := l.rect_topic_list ++ [topic_name] }
  else if QString.contains topic_type kPointDataType = true then
    { l with point_topic_list := l.point_topic_list ++ [topic_name] }
  else if QString.contains topic_type kLaneDataType = true then
    { l with lane_topic_list := l.lane_topic_list ++ [topic_name] }
  else
    l

/-- Lines 87-126 of `UpdateTopicList`: every list starts with the blank topic, then the
advertised topics (`master_topics`, the result of `ros::master::getTopics`) are analysed
in order. -/
def buildTopicLists (master_topics : List TopicInfo) : TopicLists :=
  master_topics.foldl analyseTopic
    { image_topic_list := [kBlankTopic]
      rect_topic_list := [kBlankTopic]
      point_topic_list := [kBlankTopic]
      lane_topic_list := [kBlankTopic] }

/-! ## The widgets of the form (`ui_`) -/

/-- An entry of a combo box: an item with a text, or the separator, whose text is empty. -/
inductive ComboItem where
  | text (s : QString)
  | separator
deriving DecidableEq

/-- The text of an entry. -/
def ComboItem.itemText : ComboItem → QString
  | .text s => s
  | .separator => ""

/-- A non-editable `QComboBox`: its entries and the current index (`-1` when there is none). -/
structure QComboBox where
  items : List ComboItem
  currentIndex : Int
deriving DecidableEq

namespace QComboBox

/-- `QComboBox::count()`. -/
def count (c : QComboBox) : Int := c.items.length

/-- `QComboBox::itemText(index)`: the empty string when `index` is not an entry. -/
def itemText (c : QComboBox) (index : Int) : QString :=
  if 0 ≤ index then
    match c.items.get? index.toNat with
    | some it => it.itemText
    | none => ""
  else ""

/-- `QComboBox::currentText()`: the text of the current entry, empty when there is none. -/
def currentText (c : QComboBox) : QString := c.itemText c.currentIndex

/-- `QComboBox::clear()`. -/
def clear (_c : QComboBox) : QComboBox := { items := [], currentIndex := -1 }

/-- `QComboBox::addItems(texts)`: the texts are appended; a box that was empty makes its
first entry current. -/
def addItems (c : QComboBox) (texts : List QString) : QComboBox :=
  { items := c.items ++ texts.map ComboItem.text
    currentIndex :=
      if c.items = [] ∧ texts ≠ [] ∧ ¬ (0 ≤ c.currentIndex) then 0 else c.currentIndex }

/-- `QComboBox::insertSeparator(index)`: `index` is bounded to `0..count`; the current entry
stays the same entry (its index moves up when the separator goes in at or before it), and a
box that was empty makes the new entry current. -/
def insertSeparator (c : QComboBox) (index : Int) : QComboBox :=
  let i : Nat := min index.toNat c.items.length
  { items := c.items.take i ++ ComboItem.separator :: c.items.drop i
    currentIndex :=
      if c.items = [] ∧ ¬ (0 ≤ c.currentIndex) then 0
      else if (i : Int) ≤ c.currentIndex then c.currentIndex + 1
      else c.currentIndex }

/-- Index of the first entry of `items` whose text is `text`, counted from `start`. -/
def findTextFrom (text : QString) : List ComboItem → Int → Int
  | [], _ => -1
  | it :: rest, start => if it.itemText = text then start else findTextFrom text rest (start + 1)

/-- `QComboBox::findText(text)` with the default flags (exact, case-sensitive): the index of
the first entry with that text, `-1` when there is none. -/
def findText (c : QComboBox) (text : QString) : Int := findTextFrom text c.items 0

/-- `QComboBox::setCurrentIndex(index)`: an index that is not an entry leaves no current entry. -/
def setCurrentIndex (c : QComboBox) (index : Int) : QComboBox :=
  { c with currentIndex := if 0 ≤ index ∧ index < c.count then index else -1 }

end QComboBox

/-- A `QSpinBox`: its range and value. -/
structure QSpinBox where
  minimum : Int
  maximum : Int
  value : Int
deriving DecidableEq

/-- `QSpinBox::setMinimum(lowest)`: the maximum is raised to `lowest` if it was below, and the
value is brought into the new range. -/
def QSpinBox.setMinimum (b : QSpinBox) (lowest : Int) : QSpinBox :=
  let highest := max lowest b.maximum
  { minimum := lowest, maximum := highest, value := max lowest (min highest b.value) }

/-- `QSpinBox::setValue(val)`: the value is bounded to the range. -/
def QSpinBox.setValue (b : QSpinBox) (val : Int) : QSpinBox :=
  { b with value := max b.minimum (min b.maximum val) }

/-- `Qt::AspectRatioMode`. -/
inductive AspectRatioMode where
  | IgnoreAspectRatio
  | KeepAspectRatio
  | KeepAspectRatioByExpanding
deriving DecidableEq

/-- `Qt::TransformationMode`. -/
inductive TransformationMode where
  | FastTransformation
  | SmoothTransformation
deriving DecidableEq

/-- `QEvent::Type`, as far as `eventFilter` tells the types apart. -/
inductive QEventType where
  | MouseButtonPress
  | MouseButtonRelease
  | Resize
  | Other
deriving DecidableEq

/-! ## The frameworks the plugin is glue over -/

/-- The image library, the drawers of `draw_rects.h`, `draw_points.h` and the lane drawer, the
message types and the pixmap type. Their code is not part of `image_viewer_plugin.cpp`, so the
plugin is embedded over an arbitrary choice of them. The drawers draw into the `cv::Mat` they
are handed; here they return the bitmap after drawing. -/
structure Frameworks where
  /-- The type `cv::Mat`. -/
  Mat : Type
  /-- The type `QPixmap`. -/
  QPixmap : Type
  /-- The type `sensor_msgs::Image`. -/
  Image : Type
  /-- The type `autoware_msgs::DetectedObjectArray`. -/
  DetectedObjectArray : Type
  /-- The type `autoware_msgs::PointsImage`. -/
  PointsImage : Type
  /-- The type `autoware_msgs::ImageLaneObjects`. -/
  ImageLaneObjects : Type
  /-- The value of a default-constructed `cv::Mat`. -/
  emptyMat : Mat
  /-- The result `cv_bridge::toCvCopy(msg, encoding)->image`; `none` when `toCvCopy` throws a
  `cv_bridge::Exception` because the encoding of `msg` cannot be converted to `encoding`. -/
  toCvCopy : Image → String → Option Mat
  /-- The call `rects_drawer_.DrawImageObj(msg, image)`; `none` is the `NULL` pointer. -/
  DrawImageObj : Option DetectedObjectArray → Mat → Mat
  /-- The call `points_drawer_.Draw(msg, image, point_size)`. -/
  DrawPoints : Option PointsImage → Mat → Int → Mat
  /-- The call `lane_drawer_.Draw(msg, image)`. -/
  DrawLane : Option ImageLaneObjects → Mat → Mat
  /-- The conversion `convert_image::CvMatToQPixmap(image)`. -/
  CvMatToQPixmap : Mat → QPixmap
  /-- The call `pixmap.scaled(width, height, aspect, transform)`. -/
  scaled : QPixmap → Int → Int → AspectRatioMode → TransformationMode → QPixmap

/-- `sensor_msgs::image_encodings::BGR8`. -/
def BGR8 : String := "bgr8"

/-- The label `ui_.view_`: its geometry and the pixmap it shows. -/
structure QLabel (F : Frameworks) where
  width : Int
  height : Int
  pixmap : Option F.QPixmap

/-- `QLabel::setPixmap(p)`. -/
def QLabel.setPixmap {F : Frameworks} (l : QLabel F) (p : F.QPixmap) : QLabel F :=
  { l with pixmap := some p }

/-- The form `ui_`. -/
structure Ui (F : Frameworks) where
  image_topic_combo_box_ : QComboBox
  rect_topic_combo_box_ : QComboBox
  point_topic_combo_box_ : QComboBox
  lane_topic_combo_box_ : QComboBox
  point_size_spin_box_ : QSpinBox
  view_ : QLabel F

/-! ## The message transport -/

/-- The member function a subscription delivers to. -/
inductive Callback where
  | ImageCallback
  | DetectedObjCallback
  | PointCallback
  | LaneCallback
deriving DecidableEq

/-- A subscription the transport holds for the plugin: made by
`node_handle_.subscribe(topic, queue_size, callback, this)`. -/
structure Subscription where
  id : Nat
  topic : QString
  queue_size : Nat
  callback : Callback
deriving DecidableEq

/-- The plugin's `ros::NodeHandle` together with the subscriptions made through it that are
still alive. -/
structure NodeHandle where
  next_id : Nat
  subscriptions : List Subscription
deriving DecidableEq

/-- A `ros::Subscriber` handle: empty, or the owner of one subscription. The plugin never
copies its handles, so each subscription has one owner. -/
structure Subscriber where
  impl_ : Option Nat
deriving DecidableEq

/-- `NodeHandle::subscribe`: a new subscription, and the handle that owns it. -/
def NodeHandle.subscribe (nh : NodeHandle) (topic : QString) (queue_size : Nat)
    (callback : Callback) : Subscriber × NodeHandle :=
  ({ impl_ := some nh.next_id },
   { next_id := nh.next_id + 1
     subscriptions := nh.subscriptions ++ [⟨nh.next_id, topic, queue_size, callback⟩] })

/-- The transport drops the subscription `id`. -/
def NodeHandle.unsubscribe (nh : NodeHandle) (id : Nat) : NodeHandle :=
  { nh with subscriptions := nh.subscriptions.filter (fun e => e.id ≠ id) }

/-- The last handle of a subscription goes away (it is overwritten by an assignment): the
subscription is dropped. -/
def Subscriber.release (sub : Subscriber) (nh : NodeHandle) : NodeHandle :=
  match sub.impl_ with
  | none => nh
  | some id => nh.unsubscribe id

/-- `Subscriber::shutdown()`: the subscription is dropped and the handle no longer owns one. -/
def Subscriber.shutdown (sub : Subscriber) (nh : NodeHandle) : Subscriber × NodeHandle :=
  ({ impl_ := none }, sub.release nh)

/-- The topics the transport currently delivers to `callback`. -/
def NodeHandle.subscribedTopics (nh : NodeHandle) (callback : Callback) : List QString :=
  (nh.subscriptions.filter (fun e => e.callback = callback)).map Subscription.topic

/-! ## The plugin -/

/-- The data members of `class ImageViewerPlugin`. -/
structure ImageViewerPlugin (F : Frameworks) where
  ui_ : Ui F
  node_handle_ : NodeHandle
  default_image_ : F.Mat
  viewed_image_ : F.Mat
  default_image_shown_ : Bool
  detected_objects_msg_ : Option F.DetectedObjectArray
  points_msg_ : Option F.PointsImage
  lane_msg_ : Option F.ImageLaneObjects
  image_sub_ : Subscriber
  rect_sub_ : Subscriber
  point_sub_ : Subscriber
  lane_sub_ : Subscriber

namespace ImageViewerPlugin

variable {F : Frameworks}

/-- Lines 128-143 and 145-165 of `UpdateTopicList` for one combo box: clear it, add the new
list, insert the separator at index 1, and make the last topic current if it is found. -/
def refreshComboBox (box : QComboBox) (topic_list : List QString) (topic_current : QString) :
    QComboBox :=
  let box := box.clear
  let box := box.addItems topic_list
  let box := box.insertSeparator 1
  let topic_index := box.findText topic_current
  if topic_index ≠ -1 then box.setCurrentIndex topic_index else box

/-- Lines 65-85 of `UpdateTopicList` for one combo box: the topic name currently chosen, the
blank topic when it is empty. -/
def topicCurrent (box : QComboBox) : QString :=
  let topic_current := box.currentText
  if topic_current = "" then kBlankTopic else topic_current

/-- `ImageViewerPlugin::UpdateTopicList`; `master_topics` is what `ros::master::getTopics`
returns. -/
def UpdateTopicList (s : ImageViewerPlugin F) (master_topics : List TopicInfo) :
    ImageViewerPlugin F :=
  let image_topic_current := topicCurrent s.ui_.image_topic_combo_box_
  let rect_topic_current := topicCurrent s.ui_.rect_topic_combo_box_
  let point_topic_current := topicCurrent s.ui_.point_topic_combo_box_
  let lane_topic_current := topicCurrent s.ui_.lane_topic_combo_box_
  let lists := buildTopicLists master_topics
  { s with
    ui_ :=
      { s.ui_ with
        image_topic_combo_box_ :=
          refreshComboBox s.ui_.image_topic_combo_box_ lists.image_topic_list image_topic_current
        rect_topic_combo_box_ :=
          refreshComboBox s.ui_.rect_topic_combo_box_ lists.rect_topic_list rect_topic_current
        point_topic_combo_box_ :=
          refreshComboBox s.ui_.point_topic_combo_box_ lists.point_topic_list point_topic_current
        lane_topic_combo_box_ :=
          refreshComboBox s.ui_.lane_topic_combo_box_ lists.lane_topic_list lane_topic_current } }

/-- `ImageViewerPlugin::ShowImageOnUi`. The drawers draw into `viewed_image_` itself, so the
member holds the bitmap after drawing. -/
def ShowImageOnUi (s : ImageViewerPlugin F) : ImageViewerPlugin F :=
  let viewed_image_ :=
    if !s.default_image_shown_ then
      let image := F.DrawImageObj s.detected_objects_msg_ s.viewed_image_
      let point_size := s.ui_.point_size_spin_box_.value
      let image := F.DrawPoints s.points_msg_ image point_size
      F.DrawLane s.lane_msg_ image
    else
      s.viewed_image_
  let view_on_ui := F.CvMatToQPixmap viewed_image_
  let height := s.ui_.view_.height
  let width := s.ui_.view_.width
  { s with
    viewed_image_ := viewed_image_
    ui_ :=
      { s.ui_ with
        view_ :=
          s.ui_.view_.setPixmap
            (F.scaled view_on_ui width height AspectRatioMode.KeepAspectRatio
              TransformationMode.SmoothTransformation) } }

/-- `ImageViewerPlugin::on_image_topic_combo_box__activated`. -/
def on_image_topic_combo_box__activated (s : ImageViewerPlugin F) (index : Int) :
    ImageViewerPlugin F :=
  let selected_topic := s.ui_.image_topic_combo_box_.itemText index
  if selected_topic = kBlankTopic ∨ selected_topic = "" then
    let r := s.image_sub_.shutdown s.node_handle_
    ShowImageOnUi
      { s with
        image_sub_ := r.1
        node_handle_ := r.2
        viewed_image_ := s.default_image_
        default_image_shown_ := true }
  else
    let r := s.node_handle_.subscribe selected_topic 1 Callback.ImageCallback
    { s with
      default_image_shown_ := false
      image_sub_ := r.1
      node_handle_ := s.image_sub_.release r.2 }

/-- `ImageViewerPlugin::ImageCallback`. The callback has no `try`: when `toCvCopy` throws,
the exception leaves the callback before `viewed_image_` is assigned and before
`ShowImageOnUi` runs, and the result is `none`. -/
def ImageCallback (s : ImageViewerPlugin F) (msg : F.Image) : Option (ImageViewerPlugin F) :=
  let encoding := BGR8
  match F.toCvCopy msg encoding with
  | none => none
  | some image => some (ShowImageOnUi { s with viewed_image_ := image })

/-- `ImageViewerPlugin::on_rect_topic_combo_box__activated`. -/
def on_rect_topic_combo_box__activated (s : ImageViewerPlugin F) (index : Int) :
    ImageViewerPlugin F :=
  let selected_topic := s.ui_.rect_topic_combo_box_.itemText index
  if selected_topic = kBlankTopic ∨ selected_topic = "" then
    let r := s.rect_sub_.shutdown s.node_handle_
    { s with rect_sub_ := r.1, node_handle_ := r.2, detected_objects_msg_ := none }
  else
    let r := s.node_handle_.subscribe selected_topic 1 Callback.DetectedObjCallback
    { s with
      detected_objects_msg_ := none
      rect_sub_ := r.1
      node_handle_ := s.rect_sub_.release r.2 }

/-- `ImageViewerPlugin::DetectedObjCallback`. -/
def DetectedObjCallback (s : ImageViewerPlugin F) (msg : F.DetectedObjectArray) :
    ImageViewerPlugin F :=
  { s with detected_objects_msg_ := some msg }

/-- `ImageViewerPlugin::on_point_topic_combo_box__activated`. -/
def on_point_topic_combo_box__activated (s : ImageViewerPlugin F) (index : Int) :
    ImageViewerPlugin F :=
  let selected_topic := s.ui_.point_topic_combo_box_.itemText index
  if selected_topic = kBlankTopic ∨ selected_topic = "" then
    let r := s.point_sub_.shutdown s.node_handle_
    { s with point_sub_ := r.1, node_handle_ := r.2, points_msg_ := none }
  else
    let r := s.node_handle_.subscribe selected_topic 1 Callback.PointCallback
    { s with point_sub_ := r.1, node_handle_ := s.point_sub_.release r.2 }

/-- `ImageViewerPlugin::PointCallback`. -/
def PointCallback (s : ImageViewerPlugin F) (msg : F.PointsImage) : ImageViewerPlugin F :=
  { s with points_msg_ := some msg }

/-- `ImageViewerPlugin::on_lane_topic_combo_box__activated`. -/
def on_lane_topic_combo_box__activated (s : ImageViewerPlugin F) (index : Int) :
    ImageViewerPlugin F :=
  let selected_topic := s.ui_.lane_topic_combo_box_.itemText index
  if selected_topic = kBlankTopic ∨ selected_topic = "" then
    let r := s.lane_sub_.shutdown s.node_handle_
    { s with lane_sub_ := r.1, node_handle_ := r.2, lane_msg_ := none }
  else
    let r := s.node_handle_.subscribe selected_topic 1 Callback.LaneCallback
    { s with lane_sub_ := r.1, node_handle_ := s.lane_sub_.release r.2 }

/-- `ImageViewerPlugin::LaneCallback`. -/
def LaneCallback (s : ImageViewerPlugin F) (msg : F.ImageLaneObjects) : ImageViewerPlugin F :=
  { s with lane_msg_ := some msg }

/-- `ImageViewerPlugin::resizeEvent`. -/
def resizeEvent (s : ImageViewerPlugin F) : ImageViewerPlugin F :=
  ShowImageOnUi s

/-- `ImageViewerPlugin::eventFilter`, as far as the plugin's state goes (the Boolean it returns
is that of `QObject::eventFilter`). -/
def eventFilter (s : ImageViewerPlugin F) (master_topics : List TopicInfo) (type : QEventType) :
    ImageViewerPlugin F :=
  if type = QEventType.MouseButtonPress then UpdateTopicList s master_topics else s

end ImageViewerPlugin

variable {F : Frameworks}

/-- The constructor `ImageViewerPlugin::ImageViewerPlugin`: `form` is the form as `setupUi`
builds it, `default_image` what `cv::imread` loads. The subscriber handles and the node handle
are default-constructed; `viewed_image_` and `default_image_shown_` are not read before lines
45 and 46 assign them. -/
def ImageViewerPlugin.ImageViewerPlugin (form : Ui F) (default_image : F.Mat)
    (master_topics : List TopicInfo) : ImageViewerPlugin F :=
  let s : integrated_viewer.ImageViewerPlugin F :=
    { ui_ :=
        { form with
          point_size_spin_box_ := (form.point_size_spin_box_.setMinimum 2).setValue 3 }
      node_handle_ := { next_id := 0, subscriptions := [] }
      default_image_ := default_image
      viewed_image_ := F.emptyMat
      default_image_shown_ := false
      detected_objects_msg_ := none
      points_msg_ := none
      lane_msg_ := none
      image_sub_ := { impl_ := none }
      rect_sub_ := { impl_ := none }
      point_sub_ := { impl_ := none }
      lane_sub_ := { impl_ := none } }
  let s := s.UpdateTopicList master_topics
  ImageViewerPlugin.ShowImageOnUi
    { s with viewed_image_ := s.default_image_, default_image_shown_ := true }

/-! ## Events -/

/-- The four topic categories, one combo box and one subscriber handle each. -/
inductive Category where
  | image
  | rect
  | point
  | lane
deriving DecidableEq

/-- The callback a category subscribes with. -/
def Category.callback : Category → Callback
  | .image => Callback.ImageCallback
  | .rect => Callback.DetectedObjCallback
  | .point => Callback.PointCallback
  | .lane => Callback.LaneCallback

/-- The combo box of a category. -/
def comboBox (s : ImageViewerPlugin F) : Category → QComboBox
  | .image => s.ui_.image_topic_combo_box_
  | .rect => s.ui_.rect_topic_combo_box_
  | .point => s.ui_.point_topic_combo_box_
  | .lane => s.ui_.lane_topic_combo_box_

/-- The subscriber handle of a category. -/
def subscriber (s : ImageViewerPlugin F) : Category → Subscriber
  | .image => s.image_sub_
  | .rect => s.rect_sub_
  | .point => s.point_sub_
  | .lane => s.lane_sub_

/-- The `activated(int)` slot of a category's combo box. -/
def activated (s : ImageViewerPlugin F) : Category → Int → ImageViewerPlugin F
  | .image, index => s.on_image_topic_combo_box__activated index
  | .rect, index => s.on_rect_topic_combo_box__activated index
  | .point, index => s.on_point_topic_combo_box__activated index
  | .lane, index => s.on_lane_topic_combo_box__activated index

/-- A message delivered by the transport to one of the four callbacks. -/
inductive Message (F : Frameworks) where
  | image (msg : F.Image)
  | detected_objects (msg : F.DetectedObjectArray)
  | points (msg : F.PointsImage)
  | lane (msg : F.ImageLaneObjects)

/-- The transport runs the callback of the message's category; `none` when the callback
throws. -/
def deliver (s : ImageViewerPlugin F) : Message F → Option (ImageViewerPlugin F)
  | .image msg => s.ImageCallback msg
  | .detected_objects msg => some (s.DetectedObjCallback msg)
  | .points msg => some (s.PointCallback msg)
  | .lane msg => some (s.LaneCallback msg)

/-- A sequence of message arrivals, oldest first; `none` when one of the callbacks throws. -/
def deliverAll (s : ImageViewerPlugin F) : List (Message F) → Option (ImageViewerPlugin F)
  | [] => some s
  | m :: rest =>
    match deliver s m with
    | none => none
    | some s' => deliverAll s' rest

/-- The user (or the layout) changes the current entry of a category's combo box. -/
def selectEntry (s : ImageViewerPlugin F) (c : Category) (index : Int) : ImageViewerPlugin F :=
  match c with
  | .image =>
    { s with ui_ := { s.ui_ with
        image_topic_combo_box_ := s.ui_.image_topic_combo_box_.setCurrentIndex index } }
  | .rect =>
    { s with ui_ := { s.ui_ with
        rect_topic_combo_box_ := s.ui_.rect_topic_combo_box_.setCurrentIndex index } }
  | .point =>
    { s with ui_ := { s.ui_ with
        point_topic_combo_box_ := s.ui_.point_topic_combo_box_.setCurrentIndex index } }
  | .lane =>
    { s with ui_ := { s.ui_ with
        lane_topic_combo_box_ := s.ui_.lane_topic_combo_box_.setCurrentIndex index } }

/-- What can happen to a constructed plugin. -/
inductive Event (F : Frameworks) where
  /-- An entry of a combo box is activated: the slot runs. -/
  | activated (c : Category) (index : Int)
  /-- The current entry of a combo box changes. -/
  | selectEntry (c : Category) (index : Int)
  /-- A message arrives. -/
  | message (m : Message F)
  /-- The panel receives a resize event. -/
  | resizeEvent
  /-- The layout gives the view a new size. -/
  | viewGeometry (width height : Int)
  /-- The user sets the point size in the spin box. -/
  | pointSize (value : Int)
  /-- An event on a combo box passes the event filter. -/
  | eventFilter (master_topics : List TopicInfo) (type : QEventType)

/-- The plugin after an event. A callback that throws leaves the data members as they were
when the exception left it. -/
def step (s : ImageViewerPlugin F) : Event F → ImageViewerPlugin F
  | .activated c index => activated s c index
  | .selectEntry c index => selectEntry s c index
  | .message m =>
    match deliver s m with
    | some s' => s'
    | none => s
  | .resizeEvent => s.resizeEvent
  | .viewGeometry width height =>
    { s with ui_ := { s.ui_ with view_ := { s.ui_.view_ with width := width, height := height } } }
  | .pointSize value =>
    { s with ui_ := { s.ui_ with
        point_size_spin_box_ := s.ui_.point_size_spin_box_.setValue value } }
  | .eventFilter master_topics type => s.eventFilter master_topics type

/-- The plugin after a sequence of events, oldest first. -/
def run (s : ImageViewerPlugin F) (events : List (Event F)) : ImageViewerPlugin F :=
  events.foldl step s

/-- The states the plugin can be in: those the constructor builds, and those an event leads to
from such a state. -/
inductive Reachable : ImageViewerPlugin F → Prop where
  | constructed (form : Ui F) (default_image : F.Mat) (master_topics : List TopicInfo) :
      Reachable (ImageViewerPlugin.ImageViewerPlugin form default_image master_topics)
  | step (s : ImageViewerPlugin F) (e : Event F) : Reachable s → Reachable (step s e)

/-! ## Topic classification -/

/-- The type is an image type. -/
def isImageType (t : TopicInfo) : Bool :=
  QString.contains t.datatype kImageDataType

/-- The type is a detected-object type and not an image type. -/
def isRectType (t : TopicInfo) : Bool :=
  QString.contains t.datatype kDetectedObjectDataTypeBase && !isImageType t

/-- The type is a points type and matches neither earlier category. -/
def isPointType (t : TopicInfo) : Bool :=
  QString.contains t.datatype kPointDataType && !isImageType t && !isRectType t

/-- The type is a lane type and matches none of the earlier categories. -/
def isLaneType (t : TopicInfo) : Bool :=
  QString.contains t.datatype kLaneDataType && !isImageType t && !isRectType t && !isPointType t

/-- The names of the topics of `topics` that satisfy `p`, in the order of `topics`. -/
def namesOf (p : TopicInfo → Bool) (topics : List TopicInfo) : List QString :=
  (topics.filter p).map TopicInfo.name

/-- The type contains one of the four type strings. -/
def isViewable (t : TopicInfo) : Bool :=
  QString.contains t.datatype kImageDataType
    || QString.contains t.datatype kDetectedObjectDataTypeBase
    || QString.contains t.datatype kPointDataType
    || QString.contains t.datatype kLaneDataType

/-- The selection list of a category. -/
def TopicLists.ofCategory (l : TopicLists) : Category → List QString
  | .image => l.image_topic_list
  | .rect => l.rect_topic_list
  | .point => l.point_topic_list
  | .lane => l.lane_topic_list

/-- The type string of a category. -/
def Category.dataType : Category → QString
  | .image => kImageDataType
  | .rect => kDetectedObjectDataTypeBase
  | .point => kPointDataType
  | .lane => kLaneDataType

/-- The classification of a category by string containment, in the priority order of the
checks. -/
def Category.accepts : Category → TopicInfo → Bool
  | .image => isImageType
  | .rect => isRectType
  | .point => isPointType
  | .lane => isLaneType

/-- Four advertised topics, one of each exact type. -/
def fourTopics : List TopicInfo :=
  [⟨"/image_raw", "sensor_msgs/Image"⟩,
   ⟨"/detection/objects", "autoware_msgs/DetectedObjectArray"⟩,
   ⟨"/points_image", "autoware_msgs/PointsImage"⟩,
   ⟨"/lane_pos_xy", "autoware_msgs/ImageLaneObjects"⟩]

/-! ## Subscriptions of a plugin state -/

/-- The topics category `c` is subscribed to. -/
def subscriptionsOf (s : ImageViewerPlugin F) (c : Category) : List QString :=
  s.node_handle_.subscribedTopics c.callback

/-- The handles own the subscriptions: every subscription alive belongs to the handle of its
category, every handle that owns one owns a subscription alive of its category, and the
subscription ids are distinct and below the next id. -/
structure HandlesOwn (s : ImageViewerPlugin F) : Prop where
  owned : ∀ c : Category, ∀ e ∈ s.node_handle_.subscriptions,
    e.callback = c.callback → (subscriber s c).impl_ = some e.id
  alive : ∀ c : Category, ∀ i : Nat, (subscriber s c).impl_ = some i →
    ∃ e ∈ s.node_handle_.subscriptions, e.id = i ∧ e.callback = c.callback
  distinct : (s.node_handle_.subscriptions.map Subscription.id).Nodup
  below : ∀ e ∈ s.node_handle_.subscriptions, e.id < s.node_handle_.next_id

/-! ## A concrete choice of the frameworks -/

/-- A shape drawn over a bitmap. -/
inductive Shape where
  | rectangle (x y width height : Int)
  | point (x y size : Int)
  | polyline (vertices : List (Int × Int))
deriving DecidableEq

/-- Modelled from the spec: the image library is not under `src/`; a bitmap is the frame its
pixels were loaded or decoded from, the encoding, and the shapes drawn over it so far. -/
structure Bitmap where
  frame : Nat
  encoding : String
  shapes : List Shape
deriving DecidableEq

/-- An image message: the frame it carries and the encoding of its pixels. -/
structure SensorImage where
  frame : Nat
  encoding : String
deriving DecidableEq

/-- The encodings `cv_bridge` converts to `bgr8`: the colour and the mono formats. Other
encodings, such as the depth format `32FC1`, make `toCvCopy` throw. -/
def colorEncodings : List String :=
  ["bgr8", "rgb8", "bgra8", "rgba8", "bgr16", "rgb16", "bgra16", "rgba16", "mono8", "mono16"]

/-- Modelled from the spec: the GUI toolkit is not under `src/`; a pixmap is the bitmap it was
converted from and the size and modes it was last scaled with. -/
structure Pixmap where
  bitmap : Bitmap
  scaledTo : Option (Int × Int × AspectRatioMode × TransformationMode)
deriving DecidableEq

/-- Modelled from the spec: the drawers (`draw_rects.h`, `draw_points.h`, the lane drawer) are
not under `src/`; the spec has them overlay rectangles, points and polylines onto the bitmap.
A `NULL` message draws nothing; a message draws one shape for each of its elements. -/
abbrev overlayFrameworks : Frameworks where
  Mat := Bitmap
  QPixmap := Pixmap
  Image := SensorImage
  DetectedObjectArray := List (Int × Int × Int × Int)
  PointsImage := List (Int × Int)
  ImageLaneObjects := List (List (Int × Int))
  emptyMat := { frame := 0, encoding := "", shapes := [] }
  toCvCopy := fun msg encoding =>
    if colorEncodings.contains msg.encoding then
      some { frame := msg.frame, encoding := encoding, shapes := [] }
    else none
  DrawImageObj := fun msg image =>
    match msg with
    | none => image
    | some rects =>
      { image with
        shapes := image.shapes ++ rects.map (fun r => Shape.rectangle r.1 r.2.1 r.2.2.1 r.2.2.2) }
  DrawPoints := fun msg image point_size =>
    match msg with
    | none => image
    | some points =>
      { image with
        shapes := image.shapes ++ points.map (fun p => Shape.point p.1 p.2 point_size) }
  DrawLane := fun msg image =>
    match msg with
    | none => image
    | some lanes => { image with shapes := image.shapes ++ lanes.map Shape.polyline }
  CvMatToQPixmap := fun image => { bitmap := image, scaledTo := none }
  scaled := fun pixmap width height aspect transform =>
    { pixmap with scaledTo := some (width, height, aspect, transform) }

/-- A form as `setupUi` builds it: empty combo boxes, a spin box from 0 to 99 and a view of
640 by 480. -/
def exampleForm : Ui overlayFrameworks :=
  { image_topic_combo_box_ := { items := [], currentIndex := -1 }
    rect_topic_combo_box_ := { items := [], currentIndex := -1 }
    point_topic_combo_box_ := { items := [], currentIndex := -1 }
    lane_topic_combo_box_ := { items := [], currentIndex := -1 }
    point_size_spin_box_ := { minimum := 0, maximum := 99, value := 0 }
    view_ := { width := 640, height := 480, pixmap := none } }

/-- The default image of the examples: frame 0. -/
def exampleDefaultImage : Bitmap := { frame := 0, encoding := "bgr8", shapes := [] }

/-- The plugin as constructed while `fourTopics` are advertised. -/
def examplePlugin : ImageViewerPlugin overlayFrameworks :=
  ImageViewerPlugin.ImageViewerPlugin exampleForm exampleDefaultImage fourTopics

/-! ## Message arrivals -/

/-- The message is one for `ImageCallback`. -/
def Message.isImage : Message F → Bool
  | .image _ => true
  | _ => false

/-- The callback of the message returns: an image message is one `toCvCopy` converts to
`bgr8`. -/
def Message.converts : Message F → Bool
  | .image msg => (F.toCvCopy msg BGR8).isSome
  | _ => true

/-- The detected objects of a message for `DetectedObjCallback`. -/
def Message.asDetectedObjects : Message F → Option F.DetectedObjectArray
  | .detected_objects msg => some msg
  | _ => none

/-- The points of a message for `PointCallback`. -/
def Message.asPoints : Message F → Option F.PointsImage
  | .points msg => some msg
  | _ => none

/-- The lanes of a message for `LaneCallback`. -/
def Message.asLane : Message F → Option F.ImageLaneObjects
  | .lane msg => some msg
  | _ => none

/-- The last message of a sequence of arrivals (oldest first) that `select` picks. -/
def lastDelivered {α : Type} (select : Message F → Option α) (msgs : List (Message F)) :
    Option α :=
  msgs.reverse.findSome? select

/-- The plugin of the examples, subscribed to the image and the detected objects topics. -/
def subscribedPlugin : ImageViewerPlugin overlayFrameworks :=
  run examplePlugin [Event.activated Category.image 2, Event.activated Category.rect 2]

/-- The plugin of the examples, subscribed to the image, the detected objects and the lane
topics, after a lane message has arrived. -/
def laneSubscribedPlugin : ImageViewerPlugin overlayFrameworks :=
  run examplePlugin
    [Event.activated Category.image 2, Event.activated Category.rect 2,
     Event.activated Category.lane 2, Event.message (Message.lane [[(0, 0), (4, 9)]])]

/-! ## Lemmas on the topic classification -/

/-- The scan of `containsChars` finds `sub` exactly when `sub` is a contiguous part of the
string. -/
theorem containsChars_iff_infix (sub s : List Char) :
    containsChars sub s = true ↔ sub <:+: s := by
  induction s with
  | nil =>
    unfold containsChars
    rw [List.isEmpty_iff, List.infix_nil]
  | cons c cs ih =>
    unfold containsChars
    rw [Bool.or_eq_true, ih, List.infix_cons_iff, List.isPrefixOf_iff_prefix]

theorem foldl_analyseTopic (topics : List TopicInfo) (l : TopicLists) :
    topics.foldl analyseTopic l =
      { image_topic_list := l.image_topic_list ++ namesOf isImageType topics
        rect_topic_list := l.rect_topic_list ++ namesOf isRectType topics
        point_topic_list := l.point_topic_list ++ namesOf isPointType topics
        lane_topic_list := l.lane_topic_list ++ namesOf isLaneType topics } := by
  induction topics generalizing l with
  | nil => simp [namesOf]
  | cons t ts ih =>
    rw [List.foldl_cons, ih]
    unfold analyseTopic namesOf isLaneType isPointType isRectType isImageType
    cases h1 : QString.contains t.datatype kImageDataType <;>
    cases h2 : QString.contains t.datatype kDetectedObjectDataTypeBase <;>
    cases h3 : QString.contains t.datatype kPointDataType <;>
    cases h4 : QString.contains t.datatype kLaneDataType <;>
    simp [List.filter_cons, h1, h2, h3, h4]

theorem buildTopicLists_eq (topics : List TopicInfo) :
    buildTopicLists topics =
      { image_topic_list := kBlankTopic :: namesOf isImageType topics
        rect_topic_list := kBlankTopic :: namesOf isRectType topics
        point_topic_list := kBlankTopic :: namesOf isPointType topics
        lane_topic_list := kBlankTopic :: namesOf isLaneType topics } := by
  unfold buildTopicLists
  rw [foldl_analyseTopic]
  rfl

theorem namesOf_filter_of_imp (p q : TopicInfo → Bool) (h : ∀ t, p t = true → q t = true)
    (topics : List TopicInfo) : namesOf p (topics.filter q) = namesOf p topics := by
  unfold namesOf
  rw [List.filter_filter]
  congr 1
  apply List.filter_congr
  intro t _
  cases hp : p t
  · simp
  · simp [h t hp]

theorem refresh_prepared (box : QComboBox) (blank : QString) (names : List QString) :
    ((box.clear.addItems (blank :: names)).insertSeparator 1) =
      { items := ComboItem.text blank :: ComboItem.separator :: names.map ComboItem.text
        currentIndex := 0 } := by
  simp [QComboBox.clear, QComboBox.addItems, QComboBox.insertSeparator]

theorem refreshComboBox_eq (box : QComboBox) (blank : QString) (names : List QString)
    (topic_current : QString) :
    ImageViewerPlugin.refreshComboBox box (blank :: names) topic_current =
      (let prepared : QComboBox :=
        { items := ComboItem.text blank :: ComboItem.separator :: names.map ComboItem.text
          currentIndex := 0 }
       if prepared.findText topic_current ≠ -1 then
         prepared.setCurrentIndex (prepared.findText topic_current)
       else prepared) := by
  unfold ImageViewerPlugin.refreshComboBox
  simp only [refresh_prepared]

theorem refreshComboBox_items (box : QComboBox) (blank : QString) (names : List QString)
    (topic_current : QString) :
    (ImageViewerPlugin.refreshComboBox box (blank :: names) topic_current).items =
      ComboItem.text blank :: ComboItem.separator :: names.map ComboItem.text := by
  rw [refreshComboBox_eq]
  simp only [QComboBox.setCurrentIndex]
  split <;> rfl

theorem mem_namesOf_of_nodup (p : TopicInfo → Bool) (topics : List TopicInfo) (t : TopicInfo)
    (hd : (topics.map TopicInfo.name).Nodup) (ht : t ∈ topics) :
    t.name ∈ namesOf p topics ↔ p t = true := by
  unfold namesOf
  constructor
  · intro h
    obtain ⟨u, hu, hname⟩ := List.mem_map.1 h
    have hu' := List.mem_filter.1 hu
    have : u = t := List.inj_on_of_nodup_map hd hu'.1 ht hname
    rw [← this]
    exact hu'.2
  · intro h
    exact List.mem_map.2 ⟨t, List.mem_filter.2 ⟨ht, h⟩, rfl⟩

theorem ofCategory_buildTopicLists (topics : List TopicInfo) (c : Category) :
    (buildTopicLists topics).ofCategory c = kBlankTopic :: namesOf c.accepts topics := by
  rw [buildTopicLists_eq]
  cases c <;> rfl

theorem accepts_exact (c c' : Category) (t : TopicInfo) (h : t.datatype = c.dataType) :
    c'.accepts t = true ↔ c' = c := by
  cases c <;> cases c' <;>
    simp only [Category.accepts, isLaneType, isPointType, isRectType, isImageType, h,
      Category.dataType] <;> decide

/-! ## Topic lists -/

/-- C1: for every list of advertised topics, each of the four lists `UpdateTopicList` builds is
the blank entry followed, in the order of advertisement, by the names of exactly the topics of
its category (image: the type contains the image type string; rectangle, point, lane: the type
contains the category's string and matches no earlier category); the combo boxes receive these
lists with the separator at index 1; and the topics whose type contains none of the four
strings contribute to no list. -/
theorem UpdateTopicList_builds_selection_lists (s : ImageViewerPlugin F)
    (master_topics : List TopicInfo) :
    buildTopicLists master_topics =
        { image_topic_list := kBlankTopic :: namesOf isImageType master_topics
          rect_topic_list := kBlankTopic :: namesOf isRectType master_topics
          point_topic_list := kBlankTopic :: namesOf isPointType master_topics
          lane_topic_list := kBlankTopic :: namesOf isLaneType master_topics }
      ∧ (s.UpdateTopicList master_topics).ui_.image_topic_combo_box_.items =
          ComboItem.text kBlankTopic :: ComboItem.separator ::
            (namesOf isImageType master_topics).map ComboItem.text
      ∧ (s.UpdateTopicList master_topics).ui_.rect_topic_combo_box_.items =
          ComboItem.text kBlankTopic :: ComboItem.separator ::
            (namesOf isRectType master_topics).map ComboItem.text
      ∧ (s.UpdateTopicList master_topics).ui_.point_topic_combo_box_.items =
          ComboItem.text kBlankTopic :: ComboItem.separator ::
            (namesOf isPointType master_topics).map ComboItem.text
      ∧ (s.UpdateTopicList master_topics).ui_.lane_topic_combo_box_.items =
          ComboItem.text kBlankTopic :: ComboItem.separator ::
            (namesOf isLaneType master_topics).map ComboItem.text
      ∧ buildTopicLists (master_topics.filter isViewable) = buildTopicLists master_topics := by
  refine ⟨buildTopicLists_eq _, ?_, ?_, ?_, ?_, ?_⟩
  · simp only [ImageViewerPlugin.UpdateTopicList, buildTopicLists_eq, refreshComboBox_items]
  · simp only [ImageViewerPlugin.UpdateTopicList, buildTopicLists_eq, refreshComboBox_items]
  · simp only [ImageViewerPlugin.UpdateTopicList, buildTopicLists_eq, refreshComboBox_items]
  · simp only [ImageViewerPlugin.UpdateTopicList, buildTopicLists_eq, refreshComboBox_items]
  · rw [buildTopicLists_eq, buildTopicLists_eq]
    have hi : ∀ t, isImageType t = true → isViewable t = true := by
      intro t; simp only [isImageType, isViewable]; intro h; simp [h]
    have hr : ∀ t, isRectType t = true → isViewable t = true := by
      intro t; simp only [isRectType, isViewable, Bool.and_eq_true]; intro h; simp [h.1]
    have hp : ∀ t, isPointType t = true → isViewable t = true := by
      intro t; simp only [isPointType, isViewable, Bool.and_eq_true]; intro h; simp [h.1.1]
    have hl : ∀ t, isLaneType t = true → isViewable t = true := by
      intro t; simp only [isLaneType, isViewable, Bool.and_eq_true]; intro h; simp [h.1.1.1]
    rw [namesOf_filter_of_imp _ _ hi, namesOf_filter_of_imp _ _ hr,
      namesOf_filter_of_imp _ _ hp, namesOf_filter_of_imp _ _ hl]

/-- C7: for advertised topics with pairwise distinct names, a topic whose declared type is
exactly the type string of a category is among the topic entries (those after the blank entry)
of the list of that category and of no other list; if its name is not the blank text, its name
is in no other list at all. -/
theorem exact_type_topic_in_own_list_only (master_topics : List TopicInfo) (t : TopicInfo)
    (c : Category) (hd : (master_topics.map TopicInfo.name).Nodup) (ht : t ∈ master_topics)
    (hty : t.datatype = c.dataType) :
    ∀ c' : Category,
      (t.name ∈ ((buildTopicLists master_topics).ofCategory c').tail ↔ c' = c)
      ∧ (t.name ≠ kBlankTopic →
          (t.name ∈ (buildTopicLists master_topics).ofCategory c' ↔ c' = c)) := by
  intro c'
  rw [ofCategory_buildTopicLists]
  have key := (mem_namesOf_of_nodup c'.accepts master_topics t hd ht).trans
    (accepts_exact c c' t hty)
  refine ⟨by simpa using key, ?_⟩
  intro hb
  rw [List.mem_cons]
  constructor
  · rintro (h | h)
    · exact absurd h hb
    · exact key.1 h
  · intro h
    exact Or.inr (key.2 h)

/-- Four topics of the four exact types: the points-image one is in the point list and not in
the image list. -/
theorem exact_type_topic_in_own_list_only_witness :
    (fourTopics.map TopicInfo.name).Nodup
      ∧ (⟨"/points_image", "autoware_msgs/PointsImage"⟩ : TopicInfo) ∈ fourTopics
      ∧ ("/points_image" ∈ ((buildTopicLists fourTopics).ofCategory Category.point).tail ↔
          Category.point = Category.point)
      ∧ ("/points_image" ∈ ((buildTopicLists fourTopics).ofCategory Category.image).tail ↔
          Category.image = Category.point) :=
  ⟨by decide, by decide,
    (exact_type_topic_in_own_list_only fourTopics ⟨"/points_image", "autoware_msgs/PointsImage"⟩
      Category.point (by decide) (by decide) rfl Category.point).1,
    (exact_type_topic_in_own_list_only fourTopics ⟨"/points_image", "autoware_msgs/PointsImage"⟩
      Category.point (by decide) (by decide) rfl Category.image).1⟩

/-! ## Lemmas on the subscriptions -/

theorem callback_injective (c c' : Category) (h : c.callback = c'.callback) : c = c' := by
  cases c <;> cases c' <;> first | rfl | cases h

/-- The node handle after an activation: the handle of the category is shut down when the
text is blank or empty, and replaced by a new subscription to the text otherwise. -/
theorem activated_node_handle (s : ImageViewerPlugin F) (c : Category) (index : Int) :
    (activated s c index).node_handle_ =
      if (comboBox s c).itemText index = kBlankTopic ∨ (comboBox s c).itemText index = "" then
        (subscriber s c).release s.node_handle_
      else
        (subscriber s c).release
          (s.node_handle_.subscribe ((comboBox s c).itemText index) 1 c.callback).2 := by
  cases c <;>
    simp only [activated, comboBox, subscriber, Category.callback,
      ImageViewerPlugin.on_image_topic_combo_box__activated,
      ImageViewerPlugin.on_rect_topic_combo_box__activated,
      ImageViewerPlugin.on_point_topic_combo_box__activated,
      ImageViewerPlugin.on_lane_topic_combo_box__activated,
      ImageViewerPlugin.ShowImageOnUi, Subscriber.shutdown] <;>
    split <;> rfl

/-- The handles after an activation. -/
theorem activated_subscriber (s : ImageViewerPlugin F) (c c' : Category) (index : Int) :
    subscriber (activated s c index) c' =
      if c' = c then
        (if (comboBox s c).itemText index = kBlankTopic ∨ (comboBox s c).itemText index = ""
          then { impl_ := none }
          else { impl_ := some s.node_handle_.next_id })
      else subscriber s c' := by
  cases c <;> cases c' <;>
    simp only [activated, comboBox, subscriber,
      ImageViewerPlugin.on_image_topic_combo_box__activated,
      ImageViewerPlugin.on_rect_topic_combo_box__activated,
      ImageViewerPlugin.on_point_topic_combo_box__activated,
      ImageViewerPlugin.on_lane_topic_combo_box__activated,
      ImageViewerPlugin.ShowImageOnUi, Subscriber.shutdown, NodeHandle.subscribe,
      reduceCtorEq, if_true, if_false] <;>
    split <;> rfl

theorem filter_filter_of_imp {α : Type} (p q : α → Bool) (l : List α)
    (h : ∀ e ∈ l, p e = true → q e = true) : (l.filter q).filter p = l.filter p := by
  induction l with
  | nil => rfl
  | cons a as ih =>
    have ih' := ih (fun e he => h e (List.mem_cons_of_mem a he))
    have ha := h a (List.mem_cons_self a as)
    cases hp : p a
    · cases hq : q a
      · simp [List.filter_cons, hp, hq, ih']
      · simp [List.filter_cons, hp, hq, ih']
    · simp [List.filter_cons, hp, ha hp, ih']

theorem filter_filter_of_not {α : Type} (p q : α → Bool) (l : List α)
    (h : ∀ e ∈ l, p e = true → q e = false) : (l.filter q).filter p = [] := by
  induction l with
  | nil => rfl
  | cons a as ih =>
    have ih' := ih (fun e he => h e (List.mem_cons_of_mem a he))
    have ha := h a (List.mem_cons_self a as)
    cases hp : p a
    · cases hq : q a
      · simp [List.filter_cons, hq, ih']
      · simp [List.filter_cons, hp, hq, ih']
    · simp [List.filter_cons, ha hp, ih']

theorem release_next_id (sub : Subscriber) (nh : NodeHandle) :
    (sub.release nh).next_id = nh.next_id := by
  unfold Subscriber.release
  cases sub.impl_ <;> rfl

theorem release_subscriptions (sub : Subscriber) (nh : NodeHandle) :
    (sub.release nh).subscriptions =
      nh.subscriptions.filter (fun e => decide (some e.id ≠ sub.impl_)) := by
  unfold Subscriber.release
  cases h : sub.impl_ with
  | none => simp
  | some i => simp [NodeHandle.unsubscribe]

theorem HandlesOwn.id_injective {s : ImageViewerPlugin F} (h : HandlesOwn s)
    {e e' : Subscription} (he : e ∈ s.node_handle_.subscriptions)
    (he' : e' ∈ s.node_handle_.subscriptions) (hid : e.id = e'.id) : e = e' :=
  List.inj_on_of_nodup_map h.distinct he he' hid

/-- A subscription of another category is not the one the handle of `c` owns. -/
theorem HandlesOwn.other_not_owned {s : ImageViewerPlugin F} (h : HandlesOwn s)
    {c c' : Category} (hc : c' ≠ c) {e : Subscription}
    (he : e ∈ s.node_handle_.subscriptions) (hcb : e.callback = c'.callback) :
    some e.id ≠ (subscriber s c).impl_ := by
  intro heq
  obtain ⟨e2, he2, hid, hcb2⟩ := h.alive c e.id heq.symm
  have : e2 = e := h.id_injective he2 he hid
  subst this
  exact hc (callback_injective _ _ (hcb.symm.trans hcb2))

/-- The handle of `c` does not own the id the node handle hands out next. -/
theorem HandlesOwn.next_not_owned {s : ImageViewerPlugin F} (h : HandlesOwn s) (c : Category) :
    some s.node_handle_.next_id ≠ (subscriber s c).impl_ := by
  intro heq
  obtain ⟨e, he, hid, _⟩ := h.alive c _ heq.symm
  have := h.below e he
  omega

theorem HandlesOwn.of_eq {s s' : ImageViewerPlugin F} (h : HandlesOwn s)
    (hn : s'.node_handle_ = s.node_handle_) (hs : ∀ c, subscriber s' c = subscriber s c) :
    HandlesOwn s' where
  owned := by
    intro c e he hcb
    rw [hn] at he
    rw [hs]
    exact h.owned c e he hcb
  alive := by
    intro c i hi
    rw [hs] at hi
    rw [hn]
    exact h.alive c i hi
  distinct := by rw [hn]; exact h.distinct
  below := by rw [hn]; exact h.below

theorem HandlesOwn.after_activated {s : ImageViewerPlugin F} (h : HandlesOwn s) (c : Category)
    (index : Int) : HandlesOwn (activated s c index) := by
  by_cases hb : (comboBox s c).itemText index = kBlankTopic ∨ (comboBox s c).itemText index = ""
  · have hn : (integrated_viewer.activated s c index).node_handle_ =
        (subscriber s c).release s.node_handle_ := by
      rw [activated_node_handle, if_pos hb]
    have hsub : ∀ c', subscriber (integrated_viewer.activated s c index) c' =
        if c' = c then { impl_ := none } else subscriber s c' := by
      intro c'; rw [activated_subscriber, if_pos hb]
    constructor
    · intro c' e he hcb
      rw [hn, release_subscriptions, List.mem_filter] at he
      have hne : some e.id ≠ (subscriber s c).impl_ := by simpa using he.2
      have ho := h.owned c' e he.1 hcb
      rw [hsub]
      by_cases hc : c' = c
      · subst hc; exact absurd ho.symm hne
      · rw [if_neg hc]; exact ho
    · intro c' i hi
      rw [hsub] at hi
      by_cases hc : c' = c
      · rw [if_pos hc] at hi; cases hi
      · rw [if_neg hc] at hi
        obtain ⟨e, he, hid, hcb⟩ := h.alive c' i hi
        refine ⟨e, ?_, hid, hcb⟩
        rw [hn, release_subscriptions, List.mem_filter]
        exact ⟨he, by simpa using h.other_not_owned hc he hcb⟩
    · rw [hn, release_subscriptions]
      exact h.distinct.sublist ((List.filter_sublist _).map _)
    · intro e he
      rw [hn, release_subscriptions, List.mem_filter] at he
      rw [hn, release_next_id]
      exact h.below e he.1
  · have hn : (integrated_viewer.activated s c index).node_handle_ =
        (subscriber s c).release
          (s.node_handle_.subscribe ((comboBox s c).itemText index) 1 c.callback).2 := by
      rw [activated_node_handle, if_neg hb]
    have hsub : ∀ c', subscriber (integrated_viewer.activated s c index) c' =
        if c' = c then { impl_ := some s.node_handle_.next_id } else subscriber s c' := by
      intro c'; rw [activated_subscriber, if_neg hb]
    have hmem : ∀ e, e ∈ (integrated_viewer.activated s c index).node_handle_.subscriptions ↔
        (e ∈ s.node_handle_.subscriptions ∨
          e = ⟨s.node_handle_.next_id, (comboBox s c).itemText index, 1, c.callback⟩)
        ∧ some e.id ≠ (subscriber s c).impl_ := by
      intro e
      rw [hn, release_subscriptions, List.mem_filter]
      simp [NodeHandle.subscribe]
    constructor
    · intro c' e he hcb
      obtain ⟨he1, hne⟩ := (hmem e).1 he
      rw [hsub]
      rcases he1 with he1 | he1
      · have ho := h.owned c' e he1 hcb
        by_cases hc : c' = c
        · subst hc; exact absurd ho.symm hne
        · rw [if_neg hc]; exact ho
      · subst he1
        have hc : c' = c := (callback_injective _ _ hcb).symm
        rw [if_pos hc]
    · intro c' i hi
      rw [hsub] at hi
      by_cases hc : c' = c
      · rw [if_pos hc] at hi
        subst hc
        refine ⟨⟨s.node_handle_.next_id, (comboBox s c').itemText index, 1, c'.callback⟩,
          ?_, ?_, rfl⟩
        · exact (hmem _).2 ⟨Or.inr rfl, h.next_not_owned c'⟩
        · simpa using hi
      · rw [if_neg hc] at hi
        obtain ⟨e, he, hid, hcb⟩ := h.alive c' i hi
        exact ⟨e, (hmem e).2 ⟨Or.inl he, h.other_not_owned hc he hcb⟩, hid, hcb⟩
    · rw [hn, release_subscriptions]
      refine List.Nodup.sublist ((List.filter_sublist _).map _) ?_
      simp only [NodeHandle.subscribe, List.map_append, List.map_cons, List.map_nil]
      rw [List.nodup_append]
      refine ⟨h.distinct, List.nodup_singleton _, ?_⟩
      intro i hi hi'
      obtain ⟨e, he, hid⟩ := List.mem_map.1 hi
      have := h.below e he
      have : i = s.node_handle_.next_id := by simpa using hi'
      omega
    · intro e he
      obtain ⟨he1, _⟩ := (hmem e).1 he
      rw [hn, release_next_id]
      simp only [NodeHandle.subscribe]
      rcases he1 with he1 | he1
      · have := h.below e he1; omega
      · subst he1; simp

theorem constructed_node_handle (form : Ui F) (default_image : F.Mat)
    (master_topics : List TopicInfo) :
    (ImageViewerPlugin.ImageViewerPlugin form default_image master_topics).node_handle_ =
      { next_id := 0, subscriptions := [] } := rfl

theorem constructed_subscriber (form : Ui F) (default_image : F.Mat)
    (master_topics : List TopicInfo) (c : Category) :
    subscriber (ImageViewerPlugin.ImageViewerPlugin form default_image master_topics) c =
      { impl_ := none } := by
  cases c <;> rfl

theorem HandlesOwn.of_constructed (form : Ui F) (default_image : F.Mat)
    (master_topics : List TopicInfo) :
    HandlesOwn (ImageViewerPlugin.ImageViewerPlugin form default_image master_topics) where
  owned := by
    intro c e he
    rw [constructed_node_handle] at he
    cases he
  alive := by
    intro c i hi
    rw [constructed_subscriber] at hi
    cases hi
  distinct := by rw [constructed_node_handle]; exact List.nodup_nil
  below := by
    intro e he
    rw [constructed_node_handle] at he
    cases he

/-- Events other than an activation leave the node handle, the subscriber handles and
`default_image_shown_` alone. -/
theorem step_frame (s : ImageViewerPlugin F) (e : Event F)
    (he : ∀ c index, e ≠ Event.activated c index) :
    (step s e).node_handle_ = s.node_handle_
      ∧ (∀ c, subscriber (step s e) c = subscriber s c)
      ∧ (step s e).default_image_shown_ = s.default_image_shown_ := by
  cases e with
  | activated c index => exact absurd rfl (he c index)
  | selectEntry c index =>
    refine ⟨?_, ?_, ?_⟩
    · cases c <;> rfl
    · intro c'; cases c <;> cases c' <;> rfl
    · cases c <;> rfl
  | message m =>
    cases m with
    | image msg =>
      simp only [step, deliver, ImageViewerPlugin.ImageCallback]
      cases F.toCvCopy msg BGR8 with
      | none => exact ⟨rfl, fun _ => rfl, rfl⟩
      | some image => exact ⟨rfl, fun c' => by cases c' <;> rfl, rfl⟩
    | detected_objects msg => exact ⟨rfl, fun c' => by cases c' <;> rfl, rfl⟩
    | points msg => exact ⟨rfl, fun c' => by cases c' <;> rfl, rfl⟩
    | lane msg => exact ⟨rfl, fun c' => by cases c' <;> rfl, rfl⟩
  | resizeEvent => exact ⟨rfl, fun c' => by cases c' <;> rfl, rfl⟩
  | viewGeometry width height => exact ⟨rfl, fun c' => by cases c' <;> rfl, rfl⟩
  | pointSize value => exact ⟨rfl, fun c' => by cases c' <;> rfl, rfl⟩
  | eventFilter master_topics type =>
    simp only [step, ImageViewerPlugin.eventFilter]
    split
    · exact ⟨rfl, fun c' => by cases c' <;> rfl, rfl⟩
    · exact ⟨rfl, fun _ => rfl, rfl⟩

theorem activated_default_image_shown (s : ImageViewerPlugin F) (c : Category) (index : Int) :
    (activated s c index).default_image_shown_ =
      if c = Category.image then
        (if (comboBox s c).itemText index = kBlankTopic ∨ (comboBox s c).itemText index = ""
          then true else false)
      else s.default_image_shown_ := by
  cases c <;>
    simp only [activated, comboBox,
      ImageViewerPlugin.on_image_topic_combo_box__activated,
      ImageViewerPlugin.on_rect_topic_combo_box__activated,
      ImageViewerPlugin.on_point_topic_combo_box__activated,
      ImageViewerPlugin.on_lane_topic_combo_box__activated,
      ImageViewerPlugin.ShowImageOnUi, reduceCtorEq, if_true, if_false] <;>
    split <;> rfl

/-- What holds in every reachable state: the handles own the subscriptions, and the default
image is shown exactly when the image handle owns no subscription. -/
theorem reachable_invariant (s : ImageViewerPlugin F) (hr : Reachable s) :
    HandlesOwn s ∧ (s.default_image_shown_ = true ↔ (subscriber s Category.image).impl_ = none) := by
  induction hr with
  | constructed form default_image master_topics =>
    refine ⟨HandlesOwn.of_constructed form default_image master_topics, ?_⟩
    rw [constructed_subscriber]
    exact ⟨fun _ => rfl, fun _ => rfl⟩
  | step s e _ ih =>
    by_cases he : ∃ c index, e = Event.activated c index
    · obtain ⟨c, index, rfl⟩ := he
      refine ⟨ih.1.after_activated c index, ?_⟩
      show (activated s c index).default_image_shown_ = true ↔
        (subscriber (activated s c index) Category.image).impl_ = none
      rw [activated_default_image_shown, activated_subscriber]
      by_cases hc : c = Category.image
      · subst hc
        rw [if_pos rfl, if_pos rfl]
        split <;> simp
      · rw [if_neg hc, if_neg (Ne.symm hc)]
        exact ih.2
    · have he' : ∀ c index, e ≠ Event.activated c index := fun c index h => he ⟨c, index, h⟩
      obtain ⟨hn, hs, hd⟩ := step_frame s e he'
      refine ⟨ih.1.of_eq hn hs, ?_⟩
      rw [hd, hs]
      exact ih.2

/-- The subscriptions of every category after an activation, in a state where the handles own
the subscriptions. -/
theorem subscriptionsOf_activated {s : ImageViewerPlugin F} (h : HandlesOwn s)
    (c c' : Category) (index : Int) :
    subscriptionsOf (activated s c index) c' =
      if c' = c then
        (if (comboBox s c).itemText index = kBlankTopic ∨ (comboBox s c).itemText index = ""
          then [] else [(comboBox s c).itemText index])
      else subscriptionsOf s c' := by
  unfold subscriptionsOf NodeHandle.subscribedTopics
  rw [activated_node_handle]
  by_cases hc : c' = c
  · subst hc
    rw [if_pos rfl]
    have hown : ∀ e ∈ s.node_handle_.subscriptions,
        decide (e.callback = c'.callback) = true →
          decide (some e.id ≠ (subscriber s c').impl_) = false := by
      intro e he hcb
      have := h.owned c' e he (by simpa using hcb)
      simp [this]
    split
    · rw [release_subscriptions, filter_filter_of_not _ _ _ hown]
      rfl
    · rw [release_subscriptions]
      simp only [NodeHandle.subscribe, List.filter_append, filter_filter_of_not _ _ _ hown]
      have hn := h.next_not_owned c'
      simp [List.filter_cons, hn]
  · rw [if_neg hc]
    have hoth : ∀ e ∈ s.node_handle_.subscriptions,
        decide (e.callback = c'.callback) = true →
          decide (some e.id ≠ (subscriber s c).impl_) = true := by
      intro e he hcb
      have := h.other_not_owned hc he (by simpa using hcb)
      simpa using this
    have hcb : ¬ c.callback = c'.callback := fun hh => hc (callback_injective _ _ hh).symm
    split
    · rw [release_subscriptions, filter_filter_of_imp _ _ _ hoth]
    · rw [release_subscriptions]
      simp only [NodeHandle.subscribe, List.filter_append, filter_filter_of_imp _ _ _ hoth]
      have hn := h.next_not_owned c
      simp [List.filter_cons, hn, hcb]

theorem length_le_one_of_all_eq {α : Type} (l : List α) (hnd : l.Nodup)
    (hall : ∀ a ∈ l, ∀ b ∈ l, a = b) : l.length ≤ 1 := by
  match l, hnd, hall with
  | [], _, _ => simp
  | [_], _, _ => simp
  | a :: b :: rest, hnd, hall =>
    have hab : a = b := hall a (by simp) b (by simp)
    subst hab
    simp at hnd

/-- In a state where the handles own the subscriptions, a category is subscribed to at most
one topic. -/
theorem HandlesOwn.length_le_one {s : ImageViewerPlugin F} (h : HandlesOwn s) (c : Category) :
    (subscriptionsOf s c).length ≤ 1 := by
  unfold subscriptionsOf NodeHandle.subscribedTopics
  rw [List.length_map]
  have hnd : (s.node_handle_.subscriptions.filter
      (fun e => decide (e.callback = c.callback))).Nodup :=
    (List.Nodup.of_map _ h.distinct).sublist (List.filter_sublist _)
  have hall : ∀ e ∈ s.node_handle_.subscriptions.filter
      (fun e => decide (e.callback = c.callback)),
      ∀ e' ∈ s.node_handle_.subscriptions.filter (fun e => decide (e.callback = c.callback)),
      e = e' := by
    intro e he e' he'
    rw [List.mem_filter] at he he'
    have h1 := h.owned c e he.1 (by simpa using he.2)
    have h2 := h.owned c e' he'.1 (by simpa using he'.2)
    exact h.id_injective he.1 he'.1 (Option.some.inj (h1.symm.trans h2))
  exact length_le_one_of_all_eq _ hnd hall

theorem HandlesOwn.subscriptionsOf_eq_nil_iff {s : ImageViewerPlugin F} (h : HandlesOwn s)
    (c : Category) : subscriptionsOf s c = [] ↔ (subscriber s c).impl_ = none := by
  unfold subscriptionsOf NodeHandle.subscribedTopics
  rw [List.map_eq_nil_iff, List.filter_eq_nil_iff]
  constructor
  · intro hnone
    cases hi : (subscriber s c).impl_ with
    | none => rfl
    | some i =>
      obtain ⟨e, he, _, hcb⟩ := h.alive c i hi
      exact absurd (by simpa using hcb) (hnone e he)
  · intro hnone e he hcb
    have := h.owned c e he (by simpa using hcb)
    rw [hnone] at this
    cases this

theorem refreshComboBox_itemText_one (box : QComboBox) (blank : QString) (names : List QString)
    (topic_current : QString) :
    (ImageViewerPlugin.refreshComboBox box (blank :: names) topic_current).itemText 1 = "" := by
  unfold QComboBox.itemText
  rw [refreshComboBox_items]
  rfl

theorem Reachable.after_run {s : ImageViewerPlugin F} (h : Reachable s) (events : List (Event F)) :
    Reachable (run s events) := by
  induction events generalizing s with
  | nil => exact h
  | cons e es ih => exact ih (Reachable.step s e h)

/-! ## Subscriptions -/

/-- C2: in every reachable state, for every category and every combo-box entry whose text is
neither the blank topic nor empty, the activation handler of the category leaves the category
subscribed to exactly that text, whatever it was subscribed to before, and leaves the
subscriptions of the other three categories as they were; and each category holds at most one
subscription, before and after. -/
theorem activated_subscribes_selected_topic (s : ImageViewerPlugin F) (hr : Reachable s)
    (c : Category) (index : Int) (hblank : (comboBox s c).itemText index ≠ kBlankTopic)
    (hempty : (comboBox s c).itemText index ≠ "") :
    subscriptionsOf (activated s c index) c = [(comboBox s c).itemText index]
      ∧ (∀ c', c' ≠ c → subscriptionsOf (activated s c index) c' = subscriptionsOf s c')
      ∧ (∀ c', (subscriptionsOf s c').length ≤ 1)
      ∧ (∀ c', (subscriptionsOf (activated s c index) c').length ≤ 1) := by
  have hinv := (reachable_invariant s hr).1
  have hnb : ¬ ((comboBox s c).itemText index = kBlankTopic ∨ (comboBox s c).itemText index = "") :=
    fun h => h.elim hblank hempty
  refine ⟨?_, ?_, fun c' => hinv.length_le_one c', fun c' =>
    (hinv.after_activated c index).length_le_one c'⟩
  · rw [subscriptionsOf_activated hinv, if_pos rfl, if_neg hnb]
  · intro c' hc
    rw [subscriptionsOf_activated hinv, if_neg hc]

/-- The plugin is subscribed to `/image_raw` and the detected objects; activating the image
entry again leaves one image subscription and the rectangle subscription. -/
theorem activated_subscribes_selected_topic_witness :
    Reachable (run examplePlugin [Event.activated Category.image 2, Event.activated Category.rect 2])
      ∧ subscriptionsOf
          (run examplePlugin [Event.activated Category.image 2, Event.activated Category.rect 2])
          Category.image = ["/image_raw"]
      ∧ subscriptionsOf
          (activated
            (run examplePlugin [Event.activated Category.image 2, Event.activated Category.rect 2])
            Category.image 2) Category.image = ["/image_raw"]
      ∧ subscriptionsOf
          (activated
            (run examplePlugin [Event.activated Category.image 2, Event.activated Category.rect 2])
            Category.image 2) Category.rect = ["/detection/objects"] :=
  have hr : Reachable
      (run examplePlugin [Event.activated Category.image 2, Event.activated Category.rect 2]) :=
    (Reachable.constructed exampleForm exampleDefaultImage fourTopics).after_run _
  have h := activated_subscribes_selected_topic
    (run examplePlugin [Event.activated Category.image 2, Event.activated Category.rect 2]) hr
    Category.image 2 (by decide) (by decide)
  ⟨hr, by decide, h.1.trans (by decide), (h.2.1 Category.rect (by decide)).trans (by decide)⟩

/-- C6: in every state where the handles own the subscriptions (every reachable state is
one), for every category, activating an entry whose text is the blank topic or empty (the
separator `UpdateTopicList` inserts at index 1 has the empty text) shuts the subscription of
the category down and makes no new one, leaving the other categories subscribed as they were;
for the rectangle, point and lane categories the stored message is cleared; for the image
category the stored image becomes the default image, `default_image_shown_` is set and the
view is handed the default image, scaled. -/
theorem activated_blank_shuts_down (s : ImageViewerPlugin F) (hown : HandlesOwn s)
    (c : Category) (index : Int)
    (hblank : (comboBox s c).itemText index = kBlankTopic ∨ (comboBox s c).itemText index = "") :
    subscriptionsOf (activated s c index) c = []
      ∧ (subscriber (activated s c index) c).impl_ = none
      ∧ (∀ c', c' ≠ c → subscriptionsOf (activated s c index) c' = subscriptionsOf s c')
      ∧ (activated s c index).node_handle_.subscriptions.Sublist s.node_handle_.subscriptions
      ∧ (activated s c index).node_handle_.next_id = s.node_handle_.next_id
      ∧ (match c with
          | Category.image =>
            (activated s c index).viewed_image_ = s.default_image_
              ∧ (activated s c index).default_image_shown_ = true
              ∧ (activated s c index).ui_.view_.pixmap =
                  some (F.scaled (F.CvMatToQPixmap s.default_image_) s.ui_.view_.width
                    s.ui_.view_.height AspectRatioMode.KeepAspectRatio
                    TransformationMode.SmoothTransformation)
              ∧ activated s c index =
                  { s with
                    image_sub_ := { impl_ := none }
                    node_handle_ := s.image_sub_.release s.node_handle_
                    viewed_image_ := s.default_image_
                    default_image_shown_ := true
                    ui_ :=
                      { s.ui_ with
                        view_ :=
                          { s.ui_.view_ with
                            pixmap :=
                              some (F.scaled (F.CvMatToQPixmap s.default_image_)
                                s.ui_.view_.width s.ui_.view_.height
                                AspectRatioMode.KeepAspectRatio
                                TransformationMode.SmoothTransformation) } } }
          | Category.rect =>
            (activated s c index).detected_objects_msg_ = none
              ∧ activated s c index =
                  { s with
                    rect_sub_ := { impl_ := none }
                    node_handle_ := s.rect_sub_.release s.node_handle_
                    detected_objects_msg_ := none }
          | Category.point =>
            (activated s c index).points_msg_ = none
              ∧ activated s c index =
                  { s with
                    point_sub_ := { impl_ := none }
                    node_handle_ := s.point_sub_.release s.node_handle_
                    points_msg_ := none }
          | Category.lane =>
            (activated s c index).lane_msg_ = none
              ∧ activated s c index =
                  { s with
                    lane_sub_ := { impl_ := none }
                    node_handle_ := s.lane_sub_.release s.node_handle_
                    lane_msg_ := none })
      ∧ (∀ master_topics, (comboBox (s.UpdateTopicList master_topics) c).itemText 1 = "") := by
  refine ⟨?_, ?_, ?_, ?_, ?_, ?_, ?_⟩
  · rw [subscriptionsOf_activated hown, if_pos rfl, if_pos hblank]
  · rw [activated_subscriber, if_pos rfl, if_pos hblank]
  · intro c' hc
    rw [subscriptionsOf_activated hown, if_neg hc]
  · rw [activated_node_handle, if_pos hblank, release_subscriptions]
    exact List.filter_sublist _
  · rw [activated_node_handle, if_pos hblank, release_next_id]
  · cases c <;>
      simp only [activated, comboBox,
        ImageViewerPlugin.on_image_topic_combo_box__activated,
        ImageViewerPlugin.on_rect_topic_combo_box__activated,
        ImageViewerPlugin.on_point_topic_combo_box__activated,
        ImageViewerPlugin.on_lane_topic_combo_box__activated] at hblank ⊢ <;>
      rw [if_pos hblank]
    · exact ⟨rfl, rfl, rfl, rfl⟩
    · exact ⟨rfl, rfl⟩
    · exact ⟨rfl, rfl⟩
    · exact ⟨rfl, rfl⟩
  · intro master_topics
    cases c <;>
      simp only [comboBox, ImageViewerPlugin.UpdateTopicList, buildTopicLists_eq,
        refreshComboBox_itemText_one]

/-- The plugin is subscribed to the image, the rectangle and the lane topics and has stored a
lane message. Activating the blank lane entry ends the lane subscription only and clears the
lane message; activating the separator of the image box ends the image subscription and shows
the default image. -/
theorem activated_blank_shuts_down_witness :
    HandlesOwn laneSubscribedPlugin
      ∧ subscriptionsOf laneSubscribedPlugin Category.lane = ["/lane_pos_xy"]
      ∧ laneSubscribedPlugin.lane_msg_ = some [[(0, 0), (4, 9)]]
      ∧ subscriptionsOf (activated laneSubscribedPlugin Category.lane 0) Category.lane = []
      ∧ subscriptionsOf (activated laneSubscribedPlugin Category.lane 0) Category.rect =
          ["/detection/objects"]
      ∧ (activated laneSubscribedPlugin Category.lane 0).lane_msg_ = none
      ∧ subscriptionsOf laneSubscribedPlugin Category.image = ["/image_raw"]
      ∧ subscriptionsOf (activated laneSubscribedPlugin Category.image 1) Category.image = []
      ∧ (activated laneSubscribedPlugin Category.image 1).default_image_shown_ = true :=
  have hown : HandlesOwn laneSubscribedPlugin :=
    (reachable_invariant _
      ((Reachable.constructed exampleForm exampleDefaultImage fourTopics).after_run _)).1
  have hlane := activated_blank_shuts_down laneSubscribedPlugin hown Category.lane 0 (by decide)
  have himage := activated_blank_shuts_down laneSubscribedPlugin hown Category.image 1
    (by decide)
  ⟨hown, by decide, by decide, hlane.1,
    (hlane.2.2.1 Category.rect (by decide)).trans (by decide), hlane.2.2.2.2.2.1.1,
    by decide, himage.1, himage.2.2.2.2.2.1.2.1⟩

/-! ## The default image -/

/-- C9: in every state reachable from the constructor by activations, selections, message
callbacks, resizes, spin-box edits and topic list refreshes, `default_image_shown_` is true if
and only if the image category holds no subscription: the transport delivers no topic to
`ImageCallback`, and the image handle owns nothing. -/
theorem default_image_shown_iff_unsubscribed (s : ImageViewerPlugin F) (hr : Reachable s) :
    (s.default_image_shown_ = true ↔ subscriptionsOf s Category.image = [])
      ∧ (s.default_image_shown_ = true ↔ s.image_sub_.impl_ = none) := by
  obtain ⟨hinv, hd⟩ := reachable_invariant s hr
  exact ⟨hd.trans (hinv.subscriptionsOf_eq_nil_iff Category.image).symm, hd⟩

/-- After the image entry is activated the default image is not shown and the image category
is subscribed. -/
theorem default_image_shown_iff_unsubscribed_witness :
    Reachable (step examplePlugin (Event.activated Category.image 2))
      ∧ (step examplePlugin (Event.activated Category.image 2)).default_image_shown_ = false
      ∧ ((step examplePlugin (Event.activated Category.image 2)).default_image_shown_ = true ↔
          subscriptionsOf (step examplePlugin (Event.activated Category.image 2))
            Category.image = []) :=
  ⟨Reachable.step _ _ (Reachable.constructed exampleForm exampleDefaultImage fourTopics),
    by decide,
    (default_image_shown_iff_unsubscribed _
      (Reachable.step _ _ (Reachable.constructed exampleForm exampleDefaultImage fourTopics))).1⟩

/-! ## Lemmas on the combo boxes -/

theorem findTextFrom_not_found (text : QString) (items : List ComboItem) (start : Int)
    (h : ∀ it ∈ items, it.itemText ≠ text) : QComboBox.findTextFrom text items start = -1 := by
  induction items generalizing start with
  | nil => rfl
  | cons it rest ih =>
    unfold QComboBox.findTextFrom
    rw [if_neg (h it (List.mem_cons_self it rest))]
    exact ih (start + 1) (fun x hx => h x (List.mem_cons_of_mem it hx))

theorem findTextFrom_found (text : QString) (items : List ComboItem) (start : Int)
    (h : ∃ it ∈ items, it.itemText = text) :
    start ≤ QComboBox.findTextFrom text items start
      ∧ QComboBox.findTextFrom text items start < start + items.length
      ∧ ∃ it, items.get? (QComboBox.findTextFrom text items start - start).toNat = some it
          ∧ it.itemText = text := by
  induction items generalizing start with
  | nil =>
    obtain ⟨it, hit, _⟩ := h
    cases hit
  | cons it rest ih =>
    unfold QComboBox.findTextFrom
    by_cases hit : it.itemText = text
    · rw [if_pos hit]
      refine ⟨le_refl _, ?_, it, ?_, hit⟩
      · simp only [List.length_cons]; push_cast; omega
      · simp
    · rw [if_neg hit]
      have hrest : ∃ x ∈ rest, x.itemText = text := by
        obtain ⟨x, hx, hxt⟩ := h
        rcases List.mem_cons.1 hx with hx | hx
        · subst hx; exact absurd hxt hit
        · exact ⟨x, hx, hxt⟩
      obtain ⟨h1, h2, x, hx, hxt⟩ := ih (start + 1) hrest
      refine ⟨by omega, ?_, x, ?_, hxt⟩
      · simp only [List.length_cons]; push_cast; omega
      · have hn : (QComboBox.findTextFrom text rest (start + 1) - start).toNat =
            (QComboBox.findTextFrom text rest (start + 1) - (start + 1)).toNat + 1 := by omega
        rw [hn, List.get?_cons_succ]
        exact hx

/-- A text that some entry has is found, and making the found index current makes the text
the current text. -/
theorem findText_found (box : QComboBox) (text : QString)
    (h : ∃ it ∈ box.items, it.itemText = text) :
    box.findText text ≠ -1 ∧ (box.setCurrentIndex (box.findText text)).currentText = text := by
  obtain ⟨h1, h2, it, hit, htext⟩ := findTextFrom_found text box.items 0 h
  have h1' : 0 ≤ box.findText text := h1
  have h2' : box.findText text < box.count := by
    unfold QComboBox.count; unfold QComboBox.findText; omega
  refine ⟨by omega, ?_⟩
  unfold QComboBox.currentText QComboBox.setCurrentIndex
  simp only [if_pos (And.intro h1' h2')]
  unfold QComboBox.itemText
  rw [if_pos h1']
  have : (box.findText text).toNat = (QComboBox.findTextFrom text box.items 0 - 0).toNat := by
    unfold QComboBox.findText; simp
  simp only [this, hit, htext]

theorem findText_not_found (box : QComboBox) (text : QString)
    (h : ∀ it ∈ box.items, it.itemText ≠ text) : box.findText text = -1 :=
  findTextFrom_not_found text box.items 0 h

theorem topicCurrent_ne_empty (box : QComboBox) : ImageViewerPlugin.topicCurrent box ≠ "" := by
  unfold ImageViewerPlugin.topicCurrent
  simp only
  split
  · decide
  · assumption

/-- The current text after a refresh with the list `blank :: names`. -/
theorem refreshComboBox_current (box : QComboBox) (blank : QString) (names : List QString)
    (topic_current : QString) (hne : topic_current ≠ "") :
    (topic_current ∈ blank :: names →
        (ImageViewerPlugin.refreshComboBox box (blank :: names) topic_current).currentText =
          topic_current)
      ∧ (topic_current ∉ blank :: names →
        (ImageViewerPlugin.refreshComboBox box (blank :: names) topic_current).currentIndex = 0
          ∧ (ImageViewerPlugin.refreshComboBox box (blank :: names) topic_current).currentText =
            blank) := by
  rw [refreshComboBox_eq]
  have hiff : (∃ it ∈ (ComboItem.text blank :: ComboItem.separator ::
      names.map ComboItem.text), it.itemText = topic_current) ↔ topic_current ∈ blank :: names := by
    constructor
    · rintro ⟨it, hit, htext⟩
      rcases List.mem_cons.1 hit with hit | hit
      · subst hit; rw [← htext]; exact List.mem_cons_self _ _
      · rcases List.mem_cons.1 hit with hit | hit
        · subst hit; exact absurd htext.symm hne
        · obtain ⟨n, hn, rfl⟩ := List.mem_map.1 hit
          rw [← htext]; exact List.mem_cons_of_mem _ hn
    · intro hmem
      rcases List.mem_cons.1 hmem with hmem | hmem
      · exact ⟨ComboItem.text blank, List.mem_cons_self _ _, hmem.symm⟩
      · exact ⟨ComboItem.text topic_current,
          List.mem_cons_of_mem _ (List.mem_cons_of_mem _ (List.mem_map.2 ⟨_, hmem, rfl⟩)), rfl⟩
  constructor
  · intro hmem
    obtain ⟨hf, hcur⟩ := findText_found
      { items := ComboItem.text blank :: ComboItem.separator :: names.map ComboItem.text
        currentIndex := 0 } topic_current (hiff.2 hmem)
    simp only [if_pos hf]
    exact hcur
  · intro hmem
    have hf := findText_not_found
      { items := ComboItem.text blank :: ComboItem.separator :: names.map ComboItem.text
        currentIndex := 0 } topic_current
      (fun it hit htext => hmem (hiff.1 ⟨it, hit, htext⟩))
    rw [if_neg (not_not.2 hf)]
    exact ⟨rfl, rfl⟩

theorem comboBox_UpdateTopicList (s : ImageViewerPlugin F) (master_topics : List TopicInfo)
    (c : Category) :
    comboBox (s.UpdateTopicList master_topics) c =
      ImageViewerPlugin.refreshComboBox (comboBox s c)
        ((buildTopicLists master_topics).ofCategory c)
        (ImageViewerPlugin.topicCurrent (comboBox s c)) := by
  cases c <;> rfl

/-! ## The current entry after a refresh -/

/-- C8: for every category, with `topic_current` the text selected in the combo box before the
refresh (the blank topic when the selection is empty): if `topic_current` is an entry of the
refreshed list, the current text after `UpdateTopicList` is `topic_current`; if it is not, the
current entry is the blank topic at index 0. The separator is the entry at index 1. -/
theorem UpdateTopicList_sets_last_topic_current (s : ImageViewerPlugin F)
    (master_topics : List TopicInfo) (c : Category) (topic_current : QString)
    (hcur : topic_current =
      if (comboBox s c).currentText = "" then kBlankTopic else (comboBox s c).currentText) :
    (topic_current ∈ (buildTopicLists master_topics).ofCategory c →
        (comboBox (s.UpdateTopicList master_topics) c).currentText = topic_current)
      ∧ (topic_current ∉ (buildTopicLists master_topics).ofCategory c →
        (comboBox (s.UpdateTopicList master_topics) c).currentIndex = 0
          ∧ (comboBox (s.UpdateTopicList master_topics) c).currentText = kBlankTopic)
      ∧ (comboBox (s.UpdateTopicList master_topics) c).items.get? 1 =
          some ComboItem.separator := by
  have hcur' : topic_current = ImageViewerPlugin.topicCurrent (comboBox s c) := hcur
  rw [comboBox_UpdateTopicList, ← hcur', ofCategory_buildTopicLists]
  have hne : topic_current ≠ "" := hcur' ▸ topicCurrent_ne_empty _
  obtain ⟨h1, h2⟩ := refreshComboBox_current (comboBox s c) kBlankTopic
    (namesOf c.accepts master_topics) topic_current hne
  refine ⟨h1, h2, ?_⟩
  rw [refreshComboBox_items]
  rfl

/-- The image entry `/image_raw` is selected; it stays current when the topic is still
advertised, and the blank entry becomes current when no topic is advertised. -/
theorem UpdateTopicList_sets_last_topic_current_witness :
    (comboBox (selectEntry examplePlugin Category.image 2) Category.image).currentText
        = "/image_raw"
      ∧ (comboBox ((selectEntry examplePlugin Category.image 2).UpdateTopicList fourTopics)
          Category.image).currentText = "/image_raw"
      ∧ (comboBox ((selectEntry examplePlugin Category.image 2).UpdateTopicList [])
          Category.image).currentIndex = 0 :=
  ⟨by decide,
    (UpdateTopicList_sets_last_topic_current (selectEntry examplePlugin Category.image 2)
      fourTopics Category.image "/image_raw" (by decide)).1 (by decide),
    ((UpdateTopicList_sets_last_topic_current (selectEntry examplePlugin Category.image 2)
      [] Category.image "/image_raw" (by decide)).2.1 (by decide)).1⟩

/-! ## Redraw -/

/-- C5: for every state, the bitmap `ShowImageOnUi` hands to the view is the stored image as it
is when the default image is shown, and otherwise the stored image after the stored detection
rectangles, then the stored points with the spin box's point size, then the stored lanes have
been drawn; in both cases converted and scaled to the view's width and height, keeping the
aspect ratio. The stored image afterwards is that bitmap before conversion, so it is unchanged
when the default image is shown; the view keeps its size. -/
theorem ShowImageOnUi_hands_overlaid_bitmap (s : ImageViewerPlugin F) :
    (s.ShowImageOnUi).ui_.view_.pixmap =
        some (F.scaled
          (F.CvMatToQPixmap
            (match s.default_image_shown_ with
              | true => s.viewed_image_
              | false =>
                F.DrawLane s.lane_msg_
                  (F.DrawPoints s.points_msg_
                    (F.DrawImageObj s.detected_objects_msg_ s.viewed_image_)
                    s.ui_.point_size_spin_box_.value)))
          s.ui_.view_.width s.ui_.view_.height AspectRatioMode.KeepAspectRatio
          TransformationMode.SmoothTransformation)
      ∧ (s.ShowImageOnUi).viewed_image_ =
          (match s.default_image_shown_ with
            | true => s.viewed_image_
            | false =>
              F.DrawLane s.lane_msg_
                (F.DrawPoints s.points_msg_
                  (F.DrawImageObj s.detected_objects_msg_ s.viewed_image_)
                  s.ui_.point_size_spin_box_.value))
      ∧ (s.ShowImageOnUi).ui_.view_.width = s.ui_.view_.width
      ∧ (s.ShowImageOnUi).ui_.view_.height = s.ui_.view_.height := by
  unfold ImageViewerPlugin.ShowImageOnUi
  cases h : s.default_image_shown_ <;> simp [QLabel.setPixmap]

/-- C4, as the code has it: a resize event runs `ShowImageOnUi`, which overlays the stored
data onto the stored image and hands the bitmap to the view, and changes nothing else; a topic
list refresh (`UpdateTopicList`, run by `eventFilter` on a mouse press) replaces the four combo
boxes and leaves every other member as it was: the stored image, the stored messages, the
flag, the subscriptions, the spin box and the view with the bitmap it shows. Other events
pass the filter without any change. -/
theorem resize_redraws_refresh_does_not (s : ImageViewerPlugin F)
    (master_topics : List TopicInfo) :
    s.resizeEvent = s.ShowImageOnUi
      ∧ s.resizeEvent =
          { s with
            viewed_image_ :=
              (match s.default_image_shown_ with
                | true => s.viewed_image_
                | false =>
                  F.DrawLane s.lane_msg_
                    (F.DrawPoints s.points_msg_
                      (F.DrawImageObj s.detected_objects_msg_ s.viewed_image_)
                      s.ui_.point_size_spin_box_.value))
            ui_ :=
              { s.ui_ with
                view_ :=
                  { s.ui_.view_ with
                    pixmap :=
                      some (F.scaled
                        (F.CvMatToQPixmap
                          (match s.default_image_shown_ with
                            | true => s.viewed_image_
                            | false =>
                              F.DrawLane s.lane_msg_
                                (F.DrawPoints s.points_msg_
                                  (F.DrawImageObj s.detected_objects_msg_ s.viewed_image_)
                                  s.ui_.point_size_spin_box_.value)))
                        s.ui_.view_.width s.ui_.view_.height AspectRatioMode.KeepAspectRatio
                        TransformationMode.SmoothTransformation) } } }
      ∧ s.eventFilter master_topics QEventType.MouseButtonPress = s.UpdateTopicList master_topics
      ∧ s.UpdateTopicList master_topics =
          { s with
            ui_ :=
              { s.ui_ with
                image_topic_combo_box_ :=
                  (s.UpdateTopicList master_topics).ui_.image_topic_combo_box_
                rect_topic_combo_box_ :=
                  (s.UpdateTopicList master_topics).ui_.rect_topic_combo_box_
                point_topic_combo_box_ :=
                  (s.UpdateTopicList master_topics).ui_.point_topic_combo_box_
                lane_topic_combo_box_ :=
                  (s.UpdateTopicList master_topics).ui_.lane_topic_combo_box_ } }
      ∧ (s.UpdateTopicList master_topics).viewed_image_ = s.viewed_image_
      ∧ (s.UpdateTopicList master_topics).ui_.view_ = s.ui_.view_
      ∧ (s.UpdateTopicList master_topics).detected_objects_msg_ = s.detected_objects_msg_
      ∧ (s.UpdateTopicList master_topics).points_msg_ = s.points_msg_
      ∧ (s.UpdateTopicList master_topics).lane_msg_ = s.lane_msg_
      ∧ (∀ type, type ≠ QEventType.MouseButtonPress → s.eventFilter master_topics type = s) := by
  refine ⟨rfl, ?_, rfl, rfl, rfl, rfl, rfl, rfl, rfl, ?_⟩
  · unfold ImageViewerPlugin.resizeEvent ImageViewerPlugin.ShowImageOnUi
    cases h : s.default_image_shown_ <;> simp [QLabel.setPixmap]
  · intro type htype
    unfold ImageViewerPlugin.eventFilter
    rw [if_neg htype]

/-- C4 fails as stated: with frame 7 shown and a detected rectangle stored since, a mouse
press on a combo box (the topic list refresh) leaves the view showing frame 7 without the
rectangle, while `ShowImageOnUi` would hand over the frame with the rectangle drawn. -/
theorem refresh_does_not_redraw_counterexample :
    ((run subscribedPlugin
        [Event.message (Message.image ⟨7, "bgr8"⟩),
         Event.message (Message.detected_objects [(10, 20, 30, 40)])]).eventFilter
        fourTopics QEventType.MouseButtonPress).ui_.view_.pixmap =
      some { bitmap := { frame := 7, encoding := "bgr8", shapes := [] }
             scaledTo := some (640, 480, AspectRatioMode.KeepAspectRatio,
               TransformationMode.SmoothTransformation) }
    ∧ (ImageViewerPlugin.ShowImageOnUi
        ((run subscribedPlugin
          [Event.message (Message.image ⟨7, "bgr8"⟩),
           Event.message (Message.detected_objects [(10, 20, 30, 40)])]).UpdateTopicList
          fourTopics)).ui_.view_.pixmap =
      some { bitmap := { frame := 7, encoding := "bgr8",
                         shapes := [Shape.rectangle 10 20 30 40] }
             scaledTo := some (640, 480, AspectRatioMode.KeepAspectRatio,
               TransformationMode.SmoothTransformation) }
    ∧ ((run subscribedPlugin
        [Event.message (Message.image ⟨7, "bgr8"⟩),
         Event.message (Message.detected_objects [(10, 20, 30, 40)])]).eventFilter
        fourTopics QEventType.MouseButtonPress).ui_.view_.pixmap ≠
      (ImageViewerPlugin.ShowImageOnUi
        ((run subscribedPlugin
          [Event.message (Message.image ⟨7, "bgr8"⟩),
           Event.message (Message.detected_objects [(10, 20, 30, 40)])]).UpdateTopicList
          fourTopics)).ui_.view_.pixmap := by
  decide

/-! ## Message storage -/

theorem ImageCallback_eq_some (s s' : ImageViewerPlugin F) (msg : F.Image)
    (h : s.ImageCallback msg = some s') :
    ∃ cv, F.toCvCopy msg BGR8 = some cv
      ∧ s' = ImageViewerPlugin.ShowImageOnUi { s with viewed_image_ := cv } := by
  unfold ImageViewerPlugin.ImageCallback at h
  cases hcv : F.toCvCopy msg BGR8 with
  | none => simp [hcv] at h
  | some cv =>
    simp only [hcv, Option.some.injEq] at h
    exact ⟨cv, rfl, h.symm⟩

theorem ImageCallback_of_none (s : ImageViewerPlugin F) (msg : F.Image)
    (h : F.toCvCopy msg BGR8 = none) : s.ImageCallback msg = none := by
  unfold ImageViewerPlugin.ImageCallback
  simp [h]

theorem deliver_isSome (s : ImageViewerPlugin F) (m : Message F) :
    (deliver s m).isSome = m.converts := by
  cases m with
  | image msg =>
    simp only [deliver, Message.converts, ImageViewerPlugin.ImageCallback]
    cases F.toCvCopy msg BGR8 <;> rfl
  | detected_objects msg => rfl
  | points msg => rfl
  | lane msg => rfl

theorem deliverAll_cons (s : ImageViewerPlugin F) (m : Message F) (rest : List (Message F)) :
    deliverAll s (m :: rest) = (deliver s m).bind (fun s' => deliverAll s' rest) := by
  rw [deliverAll]
  cases deliver s m <;> rfl

theorem deliverAll_isSome_iff (s : ImageViewerPlugin F) (msgs : List (Message F)) :
    (deliverAll s msgs).isSome = true ↔ ∀ m ∈ msgs, m.converts = true := by
  induction msgs generalizing s with
  | nil => simp [deliverAll]
  | cons m rest ih =>
    rw [deliverAll_cons]
    have hm := deliver_isSome s m
    cases hd : deliver s m with
    | none =>
      rw [hd] at hm
      simp only [Option.none_bind, Option.isSome_none, Bool.false_eq_true, false_iff]
      intro hall
      have := hall m (List.mem_cons_self m rest)
      rw [← hm] at this
      cases this
    | some s1 =>
      rw [hd] at hm
      simp only [Option.some_bind, ih s1, List.mem_cons, forall_eq_or_imp]
      constructor
      · intro h; exact ⟨hm.symm, h⟩
      · intro h; exact h.2

theorem deliverAll_append (s : ImageViewerPlugin F) (l l' : List (Message F)) :
    deliverAll s (l ++ l') = (deliverAll s l).bind (fun s1 => deliverAll s1 l') := by
  induction l generalizing s with
  | nil => rfl
  | cons m rest ih =>
    rw [List.cons_append, deliverAll_cons, deliverAll_cons]
    cases deliver s m with
    | none => rfl
    | some s1 => exact ih s1

theorem deliverAll_append_some (s s' : ImageViewerPlugin F) (l l' : List (Message F))
    (h : deliverAll s (l ++ l') = some s') :
    ∃ s1, deliverAll s l = some s1 ∧ deliverAll s1 l' = some s' := by
  rw [deliverAll_append] at h
  cases h1 : deliverAll s l with
  | none => simp [h1] at h
  | some s1 => exact ⟨s1, rfl, by simpa [h1] using h⟩

theorem deliverAll_singleton (s : ImageViewerPlugin F) (m : Message F) :
    deliverAll s [m] = deliver s m := by
  rw [deliverAll_cons]
  cases deliver s m <;> rfl

theorem deliver_frame (s s' : ImageViewerPlugin F) (m : Message F) (h : deliver s m = some s') :
    s'.default_image_shown_ = s.default_image_shown_
      ∧ s'.ui_.point_size_spin_box_ = s.ui_.point_size_spin_box_ := by
  cases m with
  | image msg =>
    obtain ⟨cv, _, rfl⟩ := ImageCallback_eq_some s s' msg h
    exact ⟨rfl, rfl⟩
  | detected_objects msg => cases h; exact ⟨rfl, rfl⟩
  | points msg => cases h; exact ⟨rfl, rfl⟩
  | lane msg => cases h; exact ⟨rfl, rfl⟩

theorem deliverAll_frame (s s' : ImageViewerPlugin F) (msgs : List (Message F))
    (h : deliverAll s msgs = some s') :
    s'.default_image_shown_ = s.default_image_shown_
      ∧ s'.ui_.point_size_spin_box_ = s.ui_.point_size_spin_box_ := by
  induction msgs generalizing s with
  | nil => cases h; exact ⟨rfl, rfl⟩
  | cons m rest ih =>
    rw [deliverAll_cons] at h
    cases hd : deliver s m with
    | none => simp [hd] at h
    | some s1 =>
      rw [hd] at h
      have h1 := ih s1 h
      have h2 := deliver_frame s s1 m hd
      exact ⟨h1.1.trans h2.1, h1.2.trans h2.2⟩

theorem deliverAll_viewed_image (s s' : ImageViewerPlugin F) (msgs : List (Message F))
    (hno : ∀ m ∈ msgs, m.isImage = false) (h : deliverAll s msgs = some s') :
    s'.viewed_image_ = s.viewed_image_ := by
  induction msgs generalizing s with
  | nil => cases h; rfl
  | cons m rest ih =>
    rw [deliverAll_cons] at h
    have hm := hno m (List.mem_cons_self m rest)
    cases hd : deliver s m with
    | none => simp [hd] at h
    | some s1 =>
      rw [hd] at h
      have h1 := ih s1 (fun x hx => hno x (List.mem_cons_of_mem m hx)) h
      refine h1.trans ?_
      cases m with
      | image msg => cases hm
      | detected_objects msg => cases hd; rfl
      | points msg => cases hd; rfl
      | lane msg => cases hd; rfl

theorem lastDelivered_append_singleton {α : Type} (select : Message F → Option α)
    (l : List (Message F)) (m : Message F) :
    lastDelivered select (l ++ [m]) =
      match select m with
      | some a => some a
      | none => lastDelivered select l := by
  unfold lastDelivered
  rw [List.reverse_append, List.reverse_singleton, List.singleton_append, List.findSome?_cons]
  cases select m <;> rfl

theorem deliverAll_detected_objects (s s' : ImageViewerPlugin F) (msgs : List (Message F))
    (h : deliverAll s msgs = some s') :
    s'.detected_objects_msg_ =
      match lastDelivered Message.asDetectedObjects msgs with
      | some msg => some msg
      | none => s.detected_objects_msg_ := by
  induction msgs using List.reverseRecOn generalizing s' with
  | nil => cases h; rfl
  | append_singleton l m ih =>
    obtain ⟨s1, h1, h2⟩ := deliverAll_append_some s s' l [m] h
    rw [deliverAll_singleton] at h2
    rw [lastDelivered_append_singleton]
    have ih1 := ih s1 h1
    cases m with
    | image msg =>
      obtain ⟨cv, _, rfl⟩ := ImageCallback_eq_some s1 s' msg h2
      exact ih1
    | detected_objects msg => cases h2; rfl
    | points msg => cases h2; exact ih1
    | lane msg => cases h2; exact ih1

theorem deliverAll_points (s s' : ImageViewerPlugin F) (msgs : List (Message F))
    (h : deliverAll s msgs = some s') :
    s'.points_msg_ =
      match lastDelivered Message.asPoints msgs with
      | some msg => some msg
      | none => s.points_msg_ := by
  induction msgs using List.reverseRecOn generalizing s' with
  | nil => cases h; rfl
  | append_singleton l m ih =>
    obtain ⟨s1, h1, h2⟩ := deliverAll_append_some s s' l [m] h
    rw [deliverAll_singleton] at h2
    rw [lastDelivered_append_singleton]
    have ih1 := ih s1 h1
    cases m with
    | image msg =>
      obtain ⟨cv, _, rfl⟩ := ImageCallback_eq_some s1 s' msg h2
      exact ih1
    | detected_objects msg => cases h2; exact ih1
    | points msg => cases h2; rfl
    | lane msg => cases h2; exact ih1

theorem deliverAll_lane (s s' : ImageViewerPlugin F) (msgs : List (Message F))
    (h : deliverAll s msgs = some s') :
    s'.lane_msg_ =
      match lastDelivered Message.asLane msgs with
      | some msg => some msg
      | none => s.lane_msg_ := by
  induction msgs using List.reverseRecOn generalizing s' with
  | nil => cases h; rfl
  | append_singleton l m ih =>
    obtain ⟨s1, h1, h2⟩ := deliverAll_append_some s s' l [m] h
    rw [deliverAll_singleton] at h2
    rw [lastDelivered_append_singleton]
    have ih1 := ih s1 h1
    cases m with
    | image msg =>
      obtain ⟨cv, _, rfl⟩ := ImageCallback_eq_some s1 s' msg h2
      exact ih1
    | detected_objects msg => cases h2; exact ih1
    | points msg => cases h2; exact ih1
    | lane msg => cases h2; rfl

/-- The stored image after a sequence of arrivals whose last image message is `image`. -/
theorem deliverAll_last_image (s s' : ImageViewerPlugin F) (earlier later : List (Message F))
    (image : F.Image) (hlater : ∀ m ∈ later, m.isImage = false)
    (h : deliverAll s (earlier ++ Message.image image :: later) = some s') :
    ∃ s1 cv, deliverAll s earlier = some s1 ∧ F.toCvCopy image BGR8 = some cv
      ∧ s'.viewed_image_ =
        (match s.default_image_shown_ with
          | true => cv
          | false =>
            F.DrawLane s1.lane_msg_
              (F.DrawPoints s1.points_msg_ (F.DrawImageObj s1.detected_objects_msg_ cv)
                s.ui_.point_size_spin_box_.value)) := by
  obtain ⟨s1, h1, h2⟩ := deliverAll_append_some s s' earlier _ h
  have hsplit : Message.image image :: later = [Message.image image] ++ later := rfl
  rw [hsplit] at h2
  obtain ⟨s2, h3, h4⟩ := deliverAll_append_some s1 s' _ later h2
  rw [deliverAll_singleton] at h3
  obtain ⟨cv, hcv, rfl⟩ := ImageCallback_eq_some s1 s2 image h3
  refine ⟨s1, cv, h1, hcv, ?_⟩
  rw [deliverAll_viewed_image _ _ later hlater h4]
  obtain ⟨hd, hp⟩ := deliverAll_frame s s1 earlier h1
  unfold ImageViewerPlugin.ShowImageOnUi
  simp only [hd, hp]
  cases s.default_image_shown_ <;> rfl

/-- C3, as the code has it: for every sequence of message arrivals, all callbacks return exactly
when `cv_bridge::toCvCopy` converts every image message of the sequence to `bgr8`
(`ImageCallback` throws out of a message it cannot convert, before anything is stored); when
they return, the stored message of each category (detected objects, points, lane) is the last
message delivered to the callback of the category, or what was stored before when none was
delivered; `ImageCallback` stores the converted image of its message and runs `ShowImageOnUi`,
whose drawers draw into the stored image, so after the last image message the stored image is
the converted image of that message when the default image is shown, and otherwise that image
with the rectangles, points and lanes stored at its arrival drawn into it; without an image
message the stored image stays; a callback of one category does not change what is stored for
another. -/
theorem callbacks_store_latest (s : ImageViewerPlugin F) (msgs : List (Message F)) :
    ((deliverAll s msgs).isSome = true ↔ ∀ m ∈ msgs, m.converts = true)
      ∧ (∀ s', deliverAll s msgs = some s' →
          s'.detected_objects_msg_ =
            (match lastDelivered Message.asDetectedObjects msgs with
              | some msg => some msg
              | none => s.detected_objects_msg_)
          ∧ s'.points_msg_ =
            (match lastDelivered Message.asPoints msgs with
              | some msg => some msg
              | none => s.points_msg_)
          ∧ s'.lane_msg_ =
            (match lastDelivered Message.asLane msgs with
              | some msg => some msg
              | none => s.lane_msg_)
          ∧ (∀ earlier image later, msgs = earlier ++ Message.image image :: later →
              (∀ m ∈ later, m.isImage = false) →
              ∃ s1 cv, deliverAll s earlier = some s1 ∧ F.toCvCopy image BGR8 = some cv
                ∧ s'.viewed_image_ =
                  (match s.default_image_shown_ with
                    | true => cv
                    | false =>
                      F.DrawLane s1.lane_msg_
                        (F.DrawPoints s1.points_msg_
                          (F.DrawImageObj s1.detected_objects_msg_ cv)
                          s.ui_.point_size_spin_box_.value)))
          ∧ ((∀ m ∈ msgs, m.isImage = false) → s'.viewed_image_ = s.viewed_image_))
      ∧ (∀ image, F.toCvCopy image BGR8 = none → s.ImageCallback image = none)
      ∧ (∀ image cv, F.toCvCopy image BGR8 = some cv →
          s.ImageCallback image =
            some
              { s with
                viewed_image_ :=
                  (match s.default_image_shown_ with
                    | true => cv
                    | false =>
                      F.DrawLane s.lane_msg_
                        (F.DrawPoints s.points_msg_
                          (F.DrawImageObj s.detected_objects_msg_ cv)
                          s.ui_.point_size_spin_box_.value))
                ui_ :=
                  { s.ui_ with
                    view_ :=
                      { s.ui_.view_ with
                        pixmap :=
                          some (F.scaled
                            (F.CvMatToQPixmap
                              (match s.default_image_shown_ with
                                | true => cv
                                | false =>
                                  F.DrawLane s.lane_msg_
                                    (F.DrawPoints s.points_msg_
                                      (F.DrawImageObj s.detected_objects_msg_ cv)
                                      s.ui_.point_size_spin_box_.value)))
                            s.ui_.view_.width s.ui_.view_.height
                            AspectRatioMode.KeepAspectRatio
                            TransformationMode.SmoothTransformation) } } })
      ∧ (∀ msg, s.DetectedObjCallback msg = { s with detected_objects_msg_ := some msg })
      ∧ (∀ msg, s.PointCallback msg = { s with points_msg_ := some msg })
      ∧ (∀ msg, s.LaneCallback msg = { s with lane_msg_ := some msg }) := by
  refine ⟨deliverAll_isSome_iff s msgs, ?_, ImageCallback_of_none s, ?_, fun _ => rfl,
    fun _ => rfl, fun _ => rfl⟩
  · intro s' hs'
    refine ⟨deliverAll_detected_objects s s' msgs hs', deliverAll_points s s' msgs hs',
      deliverAll_lane s s' msgs hs', ?_, fun hno => deliverAll_viewed_image s s' msgs hno hs'⟩
    intro earlier image later hmsgs hlater
    subst hmsgs
    exact deliverAll_last_image s s' earlier later image hlater hs'
  · intro image cv hcv
    unfold ImageViewerPlugin.ImageCallback ImageViewerPlugin.ShowImageOnUi
    simp only [hcv]
    cases s.default_image_shown_ <;> rfl

/-- The plugin is subscribed to the image and the detected objects; a rectangle, frame 7 in
`bgr8` and points arrive: all callbacks return, the rectangle and the points are stored, and
the stored image is frame 7 with the rectangle drawn. A depth frame makes the callback
throw. -/
theorem callbacks_store_latest_witness :
    (deliverAll subscribedPlugin
        [Message.detected_objects [(10, 20, 30, 40)], Message.image ⟨7, "bgr8"⟩,
         Message.points [(5, 6)]]).isSome = true
      ∧ (deliverAll subscribedPlugin
        [Message.detected_objects [(10, 20, 30, 40)], Message.image ⟨7, "bgr8"⟩,
         Message.points [(5, 6)]]).map ImageViewerPlugin.detected_objects_msg_ =
        some (some [(10, 20, 30, 40)])
      ∧ (deliverAll subscribedPlugin
        [Message.detected_objects [(10, 20, 30, 40)], Message.image ⟨7, "bgr8"⟩,
         Message.points [(5, 6)]]).map ImageViewerPlugin.viewed_image_ =
        some { frame := 7, encoding := "bgr8", shapes := [Shape.rectangle 10 20 30 40] }
      ∧ subscribedPlugin.ImageCallback ⟨8, "32FC1"⟩ = none :=
  have h := callbacks_store_latest subscribedPlugin
    [Message.detected_objects [(10, 20, 30, 40)], Message.image ⟨7, "bgr8"⟩,
     Message.points [(5, 6)]]
  ⟨h.1.2 (by decide), by decide, by decide, h.2.2.1 ⟨8, "32FC1"⟩ (by decide)⟩

/-- C3 fails as stated: the plugin is subscribed to the image and the detected objects and a
rectangle is stored; after frame 7 is delivered to `ImageCallback` the stored image is frame 7
with the rectangle drawn into it, not the image of the message; and after a depth frame is
delivered the callback has thrown and the stored image is still the one from before, not the
image of the last message delivered. -/
theorem stored_image_is_overlaid_counterexample :
    (deliverAll
        (run subscribedPlugin [Event.message (Message.detected_objects [(10, 20, 30, 40)])])
        [Message.image ⟨7, "bgr8"⟩]).map ImageViewerPlugin.viewed_image_ =
      some { frame := 7, encoding := "bgr8", shapes := [Shape.rectangle 10 20 30 40] }
    ∧ overlayFrameworks.toCvCopy ⟨7, "bgr8"⟩ BGR8 =
      some { frame := 7, encoding := "bgr8", shapes := [] }
    ∧ (deliverAll
        (run subscribedPlugin [Event.message (Message.detected_objects [(10, 20, 30, 40)])])
        [Message.image ⟨7, "bgr8"⟩]).map ImageViewerPlugin.viewed_image_ ≠
      overlayFrameworks.toCvCopy ⟨7, "bgr8"⟩ BGR8
    ∧ (deliverAll subscribedPlugin [Message.image ⟨8, "32FC1"⟩]).isSome = false
    ∧ (step subscribedPlugin (Event.message (Message.image ⟨8, "32FC1"⟩))).viewed_image_ =
      subscribedPlugin.viewed_image_ := by
  decide

end integrated_viewer
